import Mathlib

/-!
Verification of the vSphere VM convergence engine
(`pkg/vmprovider/providers/vsphere/session_vm_update.go`).

The Go source is shallowly embedded: each Go function becomes a Lean
function of the same name, in-place mutation of `configSpec` / `vm.Status`
becomes explicit state passing, calls to the hypervisor become entries in an
explicit call trace whose results are supplied by an `Env` of oracles, and
Go `nil` pointers become `Option`.  Machine integers (`int32`, `int64`) are
modelled as `Int`: none of the compared quantities is near the overflow
boundary in any statement below, and the source performs no arithmetic on
them other than equality comparison and negative key decrements.
-/

namespace VMOp

/-! ### vim25 device data model

Only the fields that `session_vm_update.go` reads are modelled.  Backings are
a closed discriminated union of the backing types the source's `switch`
statements handle, plus `Option` for the `nil` backing the source checks for
explicitly; a backing type outside the handled set behaves, for matching
purposes, exactly like the `nil` case (the `switch` has no default branch,
leaving `backingMatch == false`). -/

structure OptionValue where
  key : String
  value : String
deriving DecidableEq, Repr

/-- Backing union for a virtual ethernet card: the three cases of the
`switch` in `updateEthCardDeviceChanges`, with the payload fields the source
compares. -/
inductive EthCardBacking where
  | network (deviceName : String)
  | distributedVirtualPort (switchUuid : String) (portgroupKey : String)
  | opaqueNetwork (opaqueNetworkId : String)
deriving DecidableEq, Repr

structure VirtualEthernetCard where
  key : Int := 0
  addressType : String := ""
  macAddress : String := ""
  externalId : String := ""
  backing : Option EthCardBacking := none
deriving DecidableEq, Repr

structure VirtualPCIPassthroughAllowedDevice where
  vendorId : Int
  deviceId : Int
deriving DecidableEq, Repr

/-- Backing union for a PCI passthrough device: the two cases of the `switch`
in `updatePCIDeviceChanges`. -/
inductive PCIPassthroughBacking where
  | vmiop (vgpu : String)
  | dynamic (allowedDevice : List VirtualPCIPassthroughAllowedDevice) (customLabel : String)
deriving DecidableEq, Repr

structure VirtualPCIPassthrough where
  key : Int := 0
  backing : Option PCIPassthroughBacking := none
deriving DecidableEq, Repr

/-- The device classes `prePowerOnVMConfigSpec` selects out of
`config.Hardware.Device`.  Disks are opaque to the excerpted source (their
change list is produced by `updateVirtualDiskDeviceChanges`, defined
elsewhere in the repository), so only their identity is kept. -/
inductive VirtualDevice where
  | eth (card : VirtualEthernetCard)
  | pci (dev : VirtualPCIPassthrough)
  | disk (key : Int)
deriving DecidableEq, Repr

inductive VirtualDeviceConfigSpecOperation where
  | add
  | remove
  | edit
deriving DecidableEq, Repr

structure VirtualDeviceConfigSpec where
  operation : VirtualDeviceConfigSpecOperation
  device : VirtualDevice
deriving DecidableEq, Repr

/-- vim25 constant `VirtualEthernetCardMacTypeManual`. -/
def VirtualEthernetCardMacTypeManual : String := "manual"

/-! ### Device matcher -/

/-- `ethCardMatch` from the source: a manual-address expected card vetoes on
MAC inequality, a nonempty expected ExternalId vetoes on ExternalId
inequality, otherwise the cards pass this pre-filter. -/
def ethCardMatch (newEthCard curEthCard : VirtualEthernetCard) : Bool :=
  if newEthCard.addressType == VirtualEthernetCardMacTypeManual &&
      newEthCard.macAddress != curEthCard.macAddress then
    false
  else if newEthCard.externalId != "" && newEthCard.externalId != curEthCard.externalId then
    false
  else
    true

/-- The backing comparison inlined in the current-card loop of
`updateEthCardDeviceChanges`: a `nil` current backing or a backing type
different from the expected one never matches (`continue`), otherwise the
`switch` compares the identity payload of the common backing type. -/
def ethBackingMatch (expectedBacking curBacking : Option EthCardBacking) : Bool :=
  match curBacking, expectedBacking with
  | none, _ => false
  | some _, none => false
  | some (.network a), some (.network b) => a == b
  | some (.distributedVirtualPort aSwitchUuid aPortgroupKey),
    some (.distributedVirtualPort bSwitchUuid bPortgroupKey) =>
      aSwitchUuid == bSwitchUuid && aPortgroupKey == bPortgroupKey
  | some (.opaqueNetwork a), some (.opaqueNetwork b) => a == b
  | some _, some _ => false

/-- The complete per-pair test of the current-card loop of
`updateEthCardDeviceChanges`: `ethCardMatch`, then the backing comparison. -/
def ethDeviceMatch (expectedNic curNic : VirtualEthernetCard) : Bool :=
  ethCardMatch expectedNic curNic && ethBackingMatch expectedNic.backing curNic.backing

/-- The backing comparison of the current-device loop of
`updatePCIDeviceChanges`.  NOTE: on a dynamic backing the Go source indexes
`b.AllowedDevice[0]`, which panics when the expected allowed-device list is
empty; the source is only ever called with singleton lists built by
`createPCIDevices`.  The empty case is modelled as a non-match and every
theorem that depends on dynamic-backing matching assumes a nonempty list. -/
def pciBackingMatch (expectedBacking curBacking : Option PCIPassthroughBacking) : Bool :=
  match curBacking, expectedBacking with
  | none, _ => false
  | some _, none => false
  | some (.vmiop a), some (.vmiop b) => a == b
  | some (.dynamic currAllowedDevs aLabel), some (.dynamic expAllowedDevs bLabel) =>
      if aLabel == bLabel then
        match expAllowedDevs with
        | [] => false
        | expectedAllowedDev :: _ =>
            currAllowedDevs.any fun c =>
              expectedAllowedDev.deviceId == c.deviceId &&
                expectedAllowedDev.vendorId == c.vendorId
      else false
  | some _, some _ => false

def pciDeviceMatch (expectedPci curPci : VirtualPCIPassthrough) : Bool :=
  pciBackingMatch expectedPci.backing curPci.backing

/-- The loop shared by `updateEthCardDeviceChanges` and
`updatePCIDeviceChanges`: for each expected device scan the current pool for
the first device passing the match test; on a match erase it from the pool,
otherwise record the expected device as unmatched.  Returns (unmatched
expected devices in expected order, leftover pool in remaining order). -/
def matchDevicesLoop {D : Type} (m : D → D → Bool) :
    List D → List D → List D × List D
  | [], pool => ([], pool)
  | e :: es, pool =>
    match pool.findIdx? (fun c => m e c) with
    | none =>
      let r := matchDevicesLoop m es pool
      (e :: r.1, r.2)
    | some matchingIdx => matchDevicesLoop m es (pool.eraseIdx matchingIdx)

/-- The number of expected devices that found a match, by the same
recursion. -/
def matchedCount {D : Type} (m : D → D → Bool) : List D → List D → Nat
  | [], _ => 0
  | e :: es, pool =>
    match pool.findIdx? (fun c => m e c) with
    | none => matchedCount m es pool
    | some matchingIdx => matchedCount m es (pool.eraseIdx matchingIdx) + 1

/-- `updateEthCardDeviceChanges`: unmatched expected cards become Add
changes, leftover current cards become Remove changes, removes first.  (The
Go function's error result is always nil.) -/
def updateEthCardDeviceChanges
    (expectedEthCards currentEthCards : List VirtualEthernetCard) :
    List VirtualDeviceConfigSpec :=
  let r := matchDevicesLoop ethDeviceMatch expectedEthCards currentEthCards
  r.2.map (fun dev => ⟨.remove, .eth dev⟩) ++ r.1.map (fun dev => ⟨.add, .eth dev⟩)

/-- `updatePCIDeviceChanges`: same structure as the ethernet-card matcher
with the PCI backing test. -/
def updatePCIDeviceChanges
    (expectedPciDevices currentPciDevices : List VirtualPCIPassthrough) :
    List VirtualDeviceConfigSpec :=
  let r := matchDevicesLoop pciDeviceMatch expectedPciDevices currentPciDevices
  r.2.map (fun dev => ⟨.remove, .pci dev⟩) ++ r.1.map (fun dev => ⟨.add, .pci dev⟩)

/-! Spec/class-side device descriptions (`v1alpha1.VirtualDevices`). -/

structure VGPUDevice where
  profileName : String
deriving DecidableEq, Repr

structure DynamicDirectPathIODevice where
  vendorID : Int
  deviceID : Int
  customLabel : String
deriving DecidableEq, Repr

structure VirtualDevicesSpec where
  vgpuDevices : List VGPUDevice := []
  dynamicDirectPathIODevices : List DynamicDirectPathIODevice := []
deriving DecidableEq, Repr

/-- `createPCIDevices`: expected PCI passthrough devices from the class
hardware, keys decremented from -200, vGPU devices first. -/
def createPCIDevices (pciDevices : VirtualDevicesSpec) : List VirtualPCIPassthrough :=
  let vgpus := pciDevices.vgpuDevices.mapIdx fun i vGPU =>
    { key := -200 - (i : Int), backing := some (.vmiop vGPU.profileName) : VirtualPCIPassthrough }
  let dyns := pciDevices.dynamicDirectPathIODevices.mapIdx fun i d =>
    { key := -200 - (pciDevices.vgpuDevices.length : Int) - (i : Int),
      backing := some (.dynamic [⟨d.vendorID, d.deviceID⟩] d.customLabel) : VirtualPCIPassthrough }
  vgpus ++ dyns

/-! ### Kubernetes-side data model (v1alpha1)

Resource quantities (`resource.Quantity`) are modelled directly as `Int`
values in the hypervisor's target units (MHz / MB); `IsZero` becomes `= 0`.
The unit conversions `CpuQuantityToMhz` and `memoryQuantityToMb` are defined
outside the excerpted source; under this modelling they are the identity
(only zero-tests and equality of converted values reach any claim). -/

structure VirtualMachineResourceSpec where
  cpu : Int := 0
  memory : Int := 0
deriving DecidableEq, Repr

structure VirtualMachineClassResources where
  requests : VirtualMachineResourceSpec := {}
  limits : VirtualMachineResourceSpec := {}
deriving DecidableEq, Repr

structure VirtualMachineClassPolicies where
  resources : VirtualMachineClassResources := {}
deriving DecidableEq, Repr

structure VirtualMachineClassHardware where
  cpus : Int := 0
  memory : Int := 0
  devices : VirtualDevicesSpec := {}
deriving DecidableEq, Repr

structure VirtualMachineClassSpec where
  hardware : VirtualMachineClassHardware := {}
  policies : VirtualMachineClassPolicies := {}
deriving DecidableEq, Repr

/-- Modelled from the spec: `CpuQuantityToMhz` (defined outside the
excerpted source) converts a CPU quantity to MHz using the cluster minimum
frequency; with quantities modelled in MHz it is the identity. -/
def CpuQuantityToMhz (cpu : Int) (_minCPUFreq : Int) : Int := cpu

/-- Modelled from the spec: `memoryQuantityToMb` (defined outside the
excerpted source); with quantities modelled in MB it is the identity. -/
def memoryQuantityToMb (memory : Int) : Int := memory

structure VirtualMachineAdvancedOptions where
  changeBlockTracking : Option Bool := none
deriving DecidableEq, Repr

/-- One desired network interface of the VM spec.  The excerpted source only
hands interfaces to the external network provider and counts them. -/
structure VirtualMachineNetworkInterface where
  networkName : String := ""
deriving DecidableEq, Repr

structure VirtualMachineVolume where
  name : String := ""
  persistentVolumeClaim : Option Unit := none
deriving DecidableEq, Repr

structure VirtualMachineVolumeStatus where
  name : String := ""
  attached : Bool := false
deriving DecidableEq, Repr

inductive VirtualMachinePowerState where
  | poweredOn
  | poweredOff
deriving DecidableEq, Repr

structure NetworkInterfaceStatus where
  connected : Bool := false
  macAddress : String := ""
  ipAddresses : List String := []
deriving DecidableEq, Repr

/-- `VirtualMachineStatus`: the status fields `session_vm_update.go`
writes. -/
structure VirtualMachineStatus where
  phase : String := ""
  powerState : String := ""
  uniqueID : String := ""
  biosUUID : String := ""
  instanceUUID : String := ""
  host : String := ""
  vmIp : String := ""
  networkInterfaces : List NetworkInterfaceStatus := []
  changeBlockTracking : Option Bool := none
  volumes : List VirtualMachineVolumeStatus := []
deriving DecidableEq, Repr

structure VirtualMachineSpec where
  powerState : VirtualMachinePowerState := .poweredOff
  networkInterfaces : List VirtualMachineNetworkInterface := []
  volumes : List VirtualMachineVolume := []
  advancedOptions : Option VirtualMachineAdvancedOptions := none
deriving DecidableEq, Repr

structure VirtualMachine where
  name : String := ""
  annotations : List (String × String) := []
  spec : VirtualMachineSpec := {}
  status : VirtualMachineStatus := {}
deriving DecidableEq, Repr

/-- Go map indexing `vm.Annotations[k]` with its empty-string default. -/
def VirtualMachine.annotation (vm : VirtualMachine) (k : String) : String :=
  ((vm.annotations.find? fun p => p.1 = k).map fun p => p.2).getD ""

/-- `vmprovider.VmMetadata`. -/
structure VmMetadata where
  data : List (String × String) := []
  transport : String := ""
deriving DecidableEq, Repr

/-- The slice of `v1alpha1.VirtualMachineImage` the source reads:
`conditions.IsTrue(vmImage, VirtualMachineImageV1Alpha1CompatibleCondition)`
is modelled as a boolean field. -/
structure VirtualMachineImage where
  v1alpha1Compatible : Bool := false
deriving DecidableEq, Repr

structure ClusterModuleStatus where
  groupName : String := ""
  moduleUuid : String := ""
deriving DecidableEq, Repr

structure VirtualMachineSetResourcePolicy where
  clusterModules : List ClusterModuleStatus := []
deriving DecidableEq, Repr

/-! ### Constants

The extra-config keys and annotation names are declared elsewhere in the
repository; the exact strings are immaterial to every claim (only their
identity and distinctness matter), so representative values are used,
documented as modelled. -/

/-- Modelled from the spec: annotation stamped on managed VMs (declared
outside the excerpted source). -/
def VCVMAnnotation : String := "Virtual Machine managed by the vSphere Virtual Machine service"

/-- Modelled from the spec: hypervisor-side guest-customization pending
marker key (declared outside the excerpted source). -/
def GOSCPendingExtraConfigKey : String := "tools.deployPkg.fileName"

/-- Modelled from the spec: bypass annotation key (declared outside the
excerpted source). -/
def VSphereCustomizationBypassKey : String := "virtualmachine.vmoperator.vmware.com/vsphere-customization"

/-- Modelled from the spec: bypass annotation disable sentinel. -/
def VSphereCustomizationBypassDisable : String := "disable"

/-- Modelled from the spec: reserved guest-info key namespace. -/
def ExtraConfigGuestInfoPrefix : String := "guestinfo."

/-- Modelled from the spec: extra-config key forcing power-off on maintenance
mode for dynamic direct-path devices. -/
def MMPowerOffVMExtraConfigKey : String := "maintenance.vm.evacuation.poweroff"

def ExtraConfigTrue : String := "TRUE"

/-- Modelled from the spec: MMIO override annotation and extra-config keys. -/
def PCIPassthruMMIOOverrideAnnotation : String := "virtualmachine.vmoperator.vmware.com/pci-passthru-64bit-mmio-size"

def PCIPassthruMMIOExtraConfigKey : String := "pciPassthru.use64bitMMIO"

def PCIPassthruMMIOSizeExtraConfigKey : String := "pciPassthru.64bitMMIOSizeGB"

def PCIPassthruMMIOSizeDefault : String := "512"

/-- Modelled from the spec: legacy v1alpha1 image-compatibility key and its
ready/enabled sentinels (declared outside the excerpted source). -/
def VMOperatorV1Alpha1ExtraConfigKey : String := "guestinfo.vmservice.defer-cloud-init"

def VMOperatorV1Alpha1ConfigReady : String := "ready"

def VMOperatorV1Alpha1ConfigEnabled : String := "enabled"

def VirtualMachineMetadataExtraConfigTransport : String := "ExtraConfig"

def VirtualMachineMetadataOvfEnvTransport : String := "OvfEnv"

/-- Modelled from the spec: cluster-module and provider-tag annotation keys
(declared in package `pkg`, outside the excerpted source). -/
def ClusterModuleNameKey : String := "vsphere-cluster-module-group"

def ProviderTagsAnnotationKey : String := "vsphere-tag"

def ProviderTagCategoryNameKey : String := "VmVmAntiAffinityTagCategoryName"

/-! ### Hypervisor-side config model -/

structure ManagedByInfo where
  extensionKey : String := ""
  type : String := ""
deriving DecidableEq, Repr

structure ResourceAllocationInfo where
  reservation : Option Int := none
  limit : Option Int := none
deriving DecidableEq, Repr

structure VAppPropertyInfo where
  key : Int := 0
  id : String := ""
  value : String := ""
  userConfigurable : Option Bool := none
deriving DecidableEq, Repr

structure VmConfigInfo where
  property : List VAppPropertyInfo := []
deriving DecidableEq, Repr

structure VAppPropertySpec where
  info : VAppPropertyInfo
deriving DecidableEq, Repr

structure VmConfigSpec where
  property : List VAppPropertySpec := []
deriving DecidableEq, Repr

structure VirtualHardware where
  numCPU : Int := 0
  memoryMB : Int := 0
  device : List VirtualDevice := []
deriving DecidableEq, Repr

/-- `vimTypes.VirtualMachineConfigInfo`, restricted to the fields the source
reads. -/
structure VirtualMachineConfigInfo where
  uuid : String := ""
  instanceUuid : String := ""
  annotation : String := ""
  hardware : VirtualHardware := {}
  managedBy : Option ManagedByInfo := none
  cpuAllocation : Option ResourceAllocationInfo := none
  memoryAllocation : Option ResourceAllocationInfo := none
  extraConfig : List OptionValue := []
  vAppConfig : Option VmConfigInfo := none
  changeTrackingEnabled : Option Bool := none
deriving DecidableEq, Repr

/-- `vimTypes.VirtualMachineConfigSpec` (the ConfigDelta): every field
defaults to its Go zero value, so the Go comparison
`apiEquality.Semantic.DeepEqual(configSpec, &vimTypes.VirtualMachineConfigSpec{})`
is equality with `{}` here. -/
structure VirtualMachineConfigSpec where
  annotation : String := ""
  numCPUs : Int := 0
  memoryMB : Int := 0
  managedBy : Option ManagedByInfo := none
  cpuAllocation : Option ResourceAllocationInfo := none
  memoryAllocation : Option ResourceAllocationInfo := none
  extraConfig : List OptionValue := []
  vAppConfig : Option VmConfigSpec := none
  changeTrackingEnabled : Option Bool := none
  deviceChange : List VirtualDeviceConfigSpec := []
deriving DecidableEq, Repr

/-! ### Assoc-list maps

Go `map[string]string` values are modelled as association lists with
overwrite-on-insert; Go map iteration order is unspecified, the list order
makes it definite (no claim depends on the order). -/

def mapInsert (m : List (String × String)) (k v : String) : List (String × String) :=
  if m.any fun p => p.1 = k then
    m.map fun p => if p.1 = k then (k, v) else p
  else
    m ++ [(k, v)]

def mapLookup (m : List (String × String)) (k : String) : Option String :=
  (m.find? fun p => p.1 = k).map fun p => p.2

/-! ### Config Spec Builder -/

/-- `updateHardwareConfigSpec`. -/
def updateHardwareConfigSpec (config : VirtualMachineConfigInfo)
    (configSpec : VirtualMachineConfigSpec)
    (vmClassSpec : VirtualMachineClassSpec) : VirtualMachineConfigSpec :=
  let configSpec :=
    if config.annotation ≠ VCVMAnnotation then
      { configSpec with annotation := VCVMAnnotation }
    else configSpec
  let nCPUs := vmClassSpec.hardware.cpus
  let configSpec :=
    if config.hardware.numCPU ≠ nCPUs then
      { configSpec with numCPUs := nCPUs }
    else configSpec
  let memMB := memoryQuantityToMb vmClassSpec.hardware.memory
  let configSpec :=
    if config.hardware.memoryMB ≠ memMB then
      { configSpec with memoryMB := memMB }
    else configSpec
  if config.managedBy = none then
    { configSpec with managedBy := some ⟨"com.vmware.vcenter.wcp", "VirtualMachine"⟩ }
  else configSpec

/-- `updateConfigSpecCPUAllocation`.  The Go guard
`cpuAllocation == nil || cpuAllocation.Reservation == nil || *cpuAllocation.Reservation != rsv`
is exactly `cpuAllocation.bind reservation ≠ some rsv`. -/
def updateConfigSpecCPUAllocation (config : VirtualMachineConfigInfo)
    (configSpec : VirtualMachineConfigSpec)
    (vmClassSpec : VirtualMachineClassSpec) (minCPUFreq : Int) : VirtualMachineConfigSpec :=
  let cpuAllocation := config.cpuAllocation
  let cpuReservation : Option Int :=
    if vmClassSpec.policies.resources.requests.cpu ≠ 0 then
      let rsv := CpuQuantityToMhz vmClassSpec.policies.resources.requests.cpu minCPUFreq
      if (cpuAllocation.bind fun a => a.reservation) ≠ some rsv then some rsv else none
    else none
  let cpuLimit : Option Int :=
    if vmClassSpec.policies.resources.limits.cpu ≠ 0 then
      let lim := CpuQuantityToMhz vmClassSpec.policies.resources.limits.cpu minCPUFreq
      if (cpuAllocation.bind fun a => a.limit) ≠ some lim then some lim else none
    else none
  if cpuReservation ≠ none ∨ cpuLimit ≠ none then
    { configSpec with cpuAllocation := some { reservation := cpuReservation, limit := cpuLimit } }
  else configSpec

/-- `updateConfigSpecMemoryAllocation`. -/
def updateConfigSpecMemoryAllocation (config : VirtualMachineConfigInfo)
    (configSpec : VirtualMachineConfigSpec)
    (vmClassSpec : VirtualMachineClassSpec) : VirtualMachineConfigSpec :=
  let memAllocation := config.memoryAllocation
  let memoryReservation : Option Int :=
    if vmClassSpec.policies.resources.requests.memory ≠ 0 then
      let rsv := memoryQuantityToMb vmClassSpec.policies.resources.requests.memory
      if (memAllocation.bind fun a => a.reservation) ≠ some rsv then some rsv else none
    else none
  let memoryLimit : Option Int :=
    if vmClassSpec.policies.resources.limits.memory ≠ 0 then
      let lim := memoryQuantityToMb vmClassSpec.policies.resources.limits.memory
      if (memAllocation.bind fun a => a.limit) ≠ some lim then some lim else none
    else none
  if memoryReservation ≠ none ∨ memoryLimit ≠ none then
    { configSpec with memoryAllocation := some { reservation := memoryReservation, limit := memoryLimit } }
  else configSpec

/-- `setMMIOExtraConfig`. -/
def setMMIOExtraConfig (vm : VirtualMachine) (extraConfig : List (String × String)) :
    List (String × String) :=
  let mmioSize := vm.annotation PCIPassthruMMIOOverrideAnnotation
  let mmioSize := if mmioSize = "" then PCIPassthruMMIOSizeDefault else mmioSize
  if mmioSize ≠ "0" then
    mapInsert (mapInsert extraConfig PCIPassthruMMIOExtraConfigKey ExtraConfigTrue)
      PCIPassthruMMIOSizeExtraConfigKey mmioSize
  else extraConfig

/-- The accumulator map `extraConfig` built by the first half of
`updateConfigSpecExtraConfig`: rendered global entries, guest-info metadata
entries when the metadata transport is ExtraConfig, and the
feature-flag-gated MMIO keys.  Template rendering (text/template over
`vm.Spec`) is passed in as an abstract function `renderTemplateFn`; the Go
closure falls back to the literal text on parse or execute failure, which
any such function can represent. -/
def extraConfigToAppend (vmClassSpec : VirtualMachineClassSpec)
    (vm : VirtualMachine) (vmMetadata : Option VmMetadata)
    (globalExtraConfig : List (String × String))
    (renderTemplateFn : String → String → String)
    (thunderPciDevicesFSS : Bool) : List (String × String) :=
  let extraCfg := globalExtraConfig.foldl
    (fun m kv => mapInsert m kv.1 (renderTemplateFn kv.1 kv.2)) []
  let extraCfg :=
    match vmMetadata with
    | some md =>
      if md.transport = VirtualMachineMetadataExtraConfigTransport then
        md.data.foldl
          (fun m kv =>
            if ExtraConfigGuestInfoPrefix.isPrefixOf kv.1 then mapInsert m kv.1 kv.2 else m)
          extraCfg
      else extraCfg
    | none => extraCfg
  if thunderPciDevicesFSS then
    let virtualDevices := vmClassSpec.hardware.devices
    let extraCfg :=
      if virtualDevices.dynamicDirectPathIODevices.length > 0 then
        mapInsert extraCfg MMPowerOffVMExtraConfigKey ExtraConfigTrue
      else extraCfg
    if virtualDevices.vgpuDevices.length > 0 ∨ virtualDevices.dynamicDirectPathIODevices.length > 0 then
      setMMIOExtraConfig vm extraCfg
    else extraCfg
  else extraCfg

/-- The map `currentExtraConfig` built from `config.ExtraConfig`
(last-write-wins, as Go map assignment in iteration order). -/
def currentExtraConfigOf (config : VirtualMachineConfigInfo) : List (String × String) :=
  config.extraConfig.foldl (fun m opt => mapInsert m opt.key opt.value) []

/-- `updateConfigSpecExtraConfig`: append-if-absent of the accumulator
entries, then the legacy v1alpha1 compatibility force-set. -/
def updateConfigSpecExtraConfig (config : VirtualMachineConfigInfo)
    (configSpec : VirtualMachineConfigSpec)
    (vmImage : VirtualMachineImage) (vmClassSpec : VirtualMachineClassSpec)
    (vm : VirtualMachine) (vmMetadata : Option VmMetadata)
    (globalExtraConfig : List (String × String))
    (renderTemplateFn : String → String → String)
    (thunderPciDevicesFSS : Bool) : VirtualMachineConfigSpec :=
  let extraCfg :=
    extraConfigToAppend vmClassSpec vm vmMetadata globalExtraConfig renderTemplateFn
      thunderPciDevicesFSS
  let currentExtraConfig := currentExtraConfigOf config
  let configSpec := extraCfg.foldl
    (fun cs kv =>
      if mapLookup currentExtraConfig kv.1 = none then
        { cs with extraConfig := cs.extraConfig ++ [⟨kv.1, kv.2⟩] }
      else cs)
    configSpec
  if vmImage.v1alpha1Compatible ∧
      (mapLookup currentExtraConfig VMOperatorV1Alpha1ExtraConfigKey).getD "" = VMOperatorV1Alpha1ConfigReady then
    { configSpec with extraConfig :=
        configSpec.extraConfig ++
          [⟨VMOperatorV1Alpha1ExtraConfigKey, VMOperatorV1Alpha1ConfigEnabled⟩] }
  else configSpec

/-- Modelled from the spec: `GetMergedvAppConfigSpec` (defined outside the
excerpted source) merges desired metadata into the existing vApp property
list by key — a user-configurable property whose desired value differs is
emitted with the new value — and returns `none` when nothing changed. -/
def GetMergedvAppConfigSpec (inProps : List (String × String))
    (vmProps : List VAppPropertyInfo) : Option VmConfigSpec :=
  let outProps := vmProps.filterMap fun vmProp =>
    if vmProp.userConfigurable = some true then
      match mapLookup inProps vmProp.id with
      | some v => if vmProp.value ≠ v then some ⟨{ vmProp with value := v }⟩ else none
      | none => none
    else none
  if outProps.isEmpty then none else some { property := outProps }

/-- `updateConfigSpecVAppConfig`. -/
def updateConfigSpecVAppConfig (config : VirtualMachineConfigInfo)
    (configSpec : VirtualMachineConfigSpec)
    (vmMetadata : Option VmMetadata) : VirtualMachineConfigSpec :=
  match config.vAppConfig, vmMetadata with
  | some vAppConfigInfo, some md =>
    if md.transport = VirtualMachineMetadataOvfEnvTransport then
      match GetMergedvAppConfigSpec md.data vAppConfigInfo.property with
      | some vmConfigSpec => { configSpec with vAppConfig := some vmConfigSpec }
      | none => configSpec
    else configSpec
  | _, _ => configSpec

/-- `updateConfigSpecChangeBlockTracking`: untouched when the desired
tri-state flag is unset; otherwise set exactly when the current value is not
deep-equal to the desired one (for non-nil desired, `DeepEqual` on the
`*bool` pair is `config.changeTrackingEnabled = some desired`). -/
def updateConfigSpecChangeBlockTracking (config : VirtualMachineConfigInfo)
    (configSpec : VirtualMachineConfigSpec)
    (vmSpec : VirtualMachineSpec) : VirtualMachineConfigSpec :=
  match vmSpec.advancedOptions.bind fun a => a.changeBlockTracking with
  | none => configSpec
  | some desired =>
    if config.changeTrackingEnabled ≠ some desired then
      { configSpec with changeTrackingEnabled := some desired }
    else configSpec

/-- `updateConfigSpec`: the assembled pure builder. -/
def updateConfigSpec (config : VirtualMachineConfigInfo)
    (vmImage : VirtualMachineImage) (vmClassSpec : VirtualMachineClassSpec)
    (vmMetadata : Option VmMetadata)
    (globalExtraConfig : List (String × String))
    (renderTemplateFn : String → String → String)
    (thunderPciDevicesFSS : Bool)
    (minCPUFreq : Int) (vm : VirtualMachine) : VirtualMachineConfigSpec :=
  let configSpec : VirtualMachineConfigSpec := {}
  let configSpec := updateHardwareConfigSpec config configSpec vmClassSpec
  let configSpec := updateConfigSpecCPUAllocation config configSpec vmClassSpec minCPUFreq
  let configSpec := updateConfigSpecMemoryAllocation config configSpec vmClassSpec
  let configSpec :=
    updateConfigSpecExtraConfig config configSpec vmImage vmClassSpec vm vmMetadata
      globalExtraConfig renderTemplateFn thunderPciDevicesFSS
  let configSpec := updateConfigSpecVAppConfig config configSpec vmMetadata
  updateConfigSpecChangeBlockTracking config configSpec vm.spec

/-! ### Customization and network-interface carriers -/

inductive CustomizationIpGenerator where
  | dhcp
  | fixed (ip : String)
deriving DecidableEq, Repr

structure CustomizationIPSettings where
  ip : Option CustomizationIpGenerator := none
deriving DecidableEq, Repr

structure CustomizationAdapterMapping where
  macAddress : String := ""
  adapter : CustomizationIPSettings := {}
deriving DecidableEq, Repr

/-- `vimTypes.CustomizationSpec` as `customizeVM` builds it (Linux identity
with fixed host name and UTC clock, global DNS list, adapter map). -/
structure CustomizationSpec where
  identityHostName : String := ""
  hwClockUTC : Option Bool := none
  dnsServerList : List String := []
  nicSettingMap : List CustomizationAdapterMapping := []
deriving DecidableEq, Repr

structure IPConfig where
  ip : String := ""
  gateway : String := ""
  subnetMask : String := ""
deriving DecidableEq, Repr

/-- `NetworkInterfaceInfo` produced by the network provider. -/
structure NetworkInterfaceInfo where
  device : VirtualEthernetCard := {}
  customization : Option CustomizationAdapterMapping := none
  ipConfiguration : Option IPConfig := none
deriving DecidableEq, Repr

/-- Modelled from the spec: `NetworkInterfaceInfoList.GetVirtualDeviceList`
(defined outside the excerpted source) collects the allocated devices. -/
def GetVirtualDeviceList (netIfList : List NetworkInterfaceInfo) : List VirtualEthernetCard :=
  netIfList.map fun info => info.device

/-- Modelled from the spec: `NetworkInterfaceInfoList.GetInterfaceCustomizations`
(defined outside the excerpted source) collects the non-nil per-interface
customization mappings. -/
def GetInterfaceCustomizations (netIfList : List NetworkInterfaceInfo) :
    List CustomizationAdapterMapping :=
  netIfList.filterMap fun info => info.customization

/-- Modelled from the spec: `NetworkInterfaceInfoList.GetIPConfigs` (defined
outside the excerpted source). -/
def GetIPConfigs (netIfList : List NetworkInterfaceInfo) : List IPConfig :=
  netIfList.filterMap fun info => info.ipConfiguration

/-! ### Device selection from the hardware device list -/

def selectEthCards (devices : List VirtualDevice) : List VirtualEthernetCard :=
  devices.filterMap fun d =>
    match d with
    | .eth card => some card
    | _ => none

def selectPciPassthrough (devices : List VirtualDevice) : List VirtualPCIPassthrough :=
  devices.filterMap fun d =>
    match d with
    | .pci dev => some dev
    | _ => none

/-! ### Hypervisor session, call traces and oracles -/

/-- The hypervisor *write* calls the engine can issue.  Reads
(GetProperties, IsVmMemberOfClusterModule, host-name lookup) are answered by
the `Env` oracles and not traced: the claims count write calls. -/
inductive HyperCall where
  | reconfigure (spec : VirtualMachineConfigSpec)
  | fsr
  | setPowerState (state : VirtualMachinePowerState)
  | customize (spec : CustomizationSpec)
  | addVmToClusterModule (moduleUuid : String)
  | attachTagToVm (tagName : String) (tagCategoryName : String)
deriving DecidableEq, Repr

/-- The error a `Customize` call can return: the specific
`vimTypes.CustomizationPending` task fault, or any other fault. -/
inductive CustomizeError where
  | customizationPending
  | other (msg : String)
deriving DecidableEq, Repr

def CustomizeError.message : CustomizeError → String
  | .customizationPending => "CustomizationPending"
  | .other msg => msg

/-- `isCustomizationPendingError`: only the `CustomizationPending` task
fault is recognized. -/
def isCustomizationPendingError : CustomizeError → Bool
  | .customizationPending => true
  | .other _ => false

/-- `isCustomizationPendingExtraConfig`: the loop returns at the first
option with the pending key, reporting whether its value is nonempty. -/
def isCustomizationPendingExtraConfig (extraConfig : List OptionValue) : Bool :=
  match extraConfig.find? fun opt => opt.key = GOSCPendingExtraConfigKey with
  | some optValue => optValue.value ≠ ""
  | none => false

def VirtualMachinePowerStatePoweredOff : String := "poweredOff"

def VirtualMachinePowerStatePoweredOn : String := "poweredOn"

structure VirtualMachineRuntimeInfo where
  powerState : String := ""
  connectionState : String := ""
deriving DecidableEq, Repr

/-- The property snapshot fetched at the head of `UpdateVirtualMachine`
(`GetProperties(.., ["config", "runtime"])`): `Config` is a nullable
pointer. -/
structure MoVirtualMachine where
  config : Option VirtualMachineConfigInfo := none
  runtime : VirtualMachineRuntimeInfo := {}
deriving DecidableEq, Repr

structure GuestIpAddress where
  ipAddress : String := ""
  prefixLength : Int := 0
deriving DecidableEq, Repr

structure GuestNicIpConfig where
  ipAddress : List GuestIpAddress := []
deriving DecidableEq, Repr

structure GuestNicInfo where
  connected : Bool := false
  macAddress : String := ""
  ipConfig : GuestNicIpConfig := {}
deriving DecidableEq, Repr

structure GuestInfo where
  ipAddress : String := ""
  net : List GuestNicInfo := []
deriving DecidableEq, Repr

structure SummaryRuntime where
  powerState : String := ""
  host : Option String := none
deriving DecidableEq, Repr

structure SummaryConfig where
  uuid : String := ""
  instanceUuid : String := ""
deriving DecidableEq, Repr

structure VirtualMachineSummary where
  runtime : SummaryRuntime := {}
  config : SummaryConfig := {}
deriving DecidableEq, Repr

/-- The property snapshot fetched by `updateVMStatus`
(`["config.changeTrackingEnabled", "guest", "summary"]`).
`configChangeTracking = none` models a nil `moVM.Config`. -/
structure StatusMoVM where
  configChangeTracking : Option (Option Bool) := none
  guest : Option GuestInfo := none
  summary : VirtualMachineSummary := {}
deriving DecidableEq, Repr

/-- The session state `session_vm_update.go` reads.  The two feature-flag
checks (`lib.IsThunderPciDevicesFSSEnabled`, `lib.IsVMServiceV1Alpha2FSSEnabled`)
are ambient globals in Go, modelled as explicit booleans. -/
structure Session where
  extraConfig : List (String × String) := []
  cpuMinMHzInCluster : Int := 0
  tagInfo : List (String × String) := []
  thunderPciDevicesFSS : Bool := false
  vmServiceV1Alpha2FSS : Bool := false

/-- Oracles answering every external call of one convergence pass, each
modelling the result the collaborator returns on the (single) occasion the
engine makes that call.  `renderExtraConfigTemplate` and `renderTemplate`
stand for the two text/template closures of the source (both fall back to
the literal text on failure, which any function of this type can
represent); `updateVirtualDiskDeviceChanges` stands for the disk-diff
function defined outside the excerpted source. -/
structure Env where
  getVirtualMachine : Except String Unit := .ok ()
  getProperties : Except String MoVirtualMachine := .error "unset"
  moRefValue : String := ""
  ensureNetworkInterface : Nat → Except String NetworkInterfaceInfo := fun _ => .error "unset"
  getNameservers : Except String (List String) := .ok []
  renderExtraConfigTemplate : String → String → String := fun _ v => v
  renderTemplate : String → String → String := fun _ v => v
  updateVirtualDiskDeviceChanges : Except String (List VirtualDeviceConfigSpec) := .ok []
  reconfigure : Except String Unit := .ok ()
  fsr : Except String Unit := .ok ()
  customize : Option CustomizeError := none
  setPowerState : VirtualMachinePowerState → Except String Unit := fun _ => .ok ()
  getStatusProperties : Except String StatusMoVM := .error "unset"
  hostObjectName : Except String String := .error "unset"
  isVmMemberOfClusterModule : Except String Bool := .ok false
  addVmToClusterModule : Except String Unit := .ok ()
  attachTagToVm : Except String Unit := .ok ()

/-- `vmprovider.VmConfigArgs` (with `VmClass` flattened to its `Spec`). -/
structure VmConfigArgs where
  vmClass : VirtualMachineClassSpec := {}
  vmImage : VirtualMachineImage := {}
  vmMetadata : Option VmMetadata := none
  resourcePolicy : VirtualMachineSetResourcePolicy := {}
deriving DecidableEq, Repr

/-- `vmUpdateArgs`: the config args plus the resolved network interface
list and DNS servers. -/
structure VmUpdateArgs where
  vmClass : VirtualMachineClassSpec := {}
  vmImage : VirtualMachineImage := {}
  vmMetadata : Option VmMetadata := none
  resourcePolicy : VirtualMachineSetResourcePolicy := {}
  netIfList : List NetworkInterfaceInfo := []
  dnsServers : List String := []
deriving DecidableEq, Repr

/-! ### Reconfigure paths -/

/-- `customizeVM`: bypass annotation or pending marker skip the request
entirely; an issued request that fails with the pending fault is treated as
success; any other failure propagates. -/
def customizeVM (env : Env) (vm : VirtualMachine) (config : VirtualMachineConfigInfo)
    (updateArgs : VmUpdateArgs) : List HyperCall × Except String Unit :=
  if vm.annotation VSphereCustomizationBypassKey = VSphereCustomizationBypassDisable then
    ([], .ok ())
  else if isCustomizationPendingExtraConfig config.extraConfig then
    ([], .ok ())
  else
    let customizationSpec : CustomizationSpec :=
      { identityHostName := vm.name
        hwClockUTC := some true
        dnsServerList := updateArgs.dnsServers
        nicSettingMap := GetInterfaceCustomizations updateArgs.netIfList }
    match env.customize with
    | none => ([.customize customizationSpec], .ok ())
    | some err =>
      if isCustomizationPendingError err then ([.customize customizationSpec], .ok ())
      else ([.customize customizationSpec], .error err.message)

/-- `prePowerOnVMConfigSpec`: the assembled full delta — builder fields,
then disk changes, ethernet-card changes and (feature-flagged) PCI
passthrough changes appended in that order. -/
def prePowerOnVMConfigSpec (s : Session) (env : Env) (vm : VirtualMachine)
    (config : VirtualMachineConfigInfo) (updateArgs : VmUpdateArgs) :
    Except String VirtualMachineConfigSpec :=
  let configSpec :=
    updateConfigSpec config updateArgs.vmImage updateArgs.vmClass updateArgs.vmMetadata
      s.extraConfig env.renderExtraConfigTemplate s.thunderPciDevicesFSS
      s.cpuMinMHzInCluster vm
  let virtualDevices := config.hardware.device
  let currentEthCards := selectEthCards virtualDevices
  match env.updateVirtualDiskDeviceChanges with
  | .error e => .error e
  | .ok diskDeviceChanges =>
    let configSpec := { configSpec with deviceChange := configSpec.deviceChange ++ diskDeviceChanges }
    let expectedEthCards := GetVirtualDeviceList updateArgs.netIfList
    let ethCardDeviceChanges := updateEthCardDeviceChanges expectedEthCards currentEthCards
    let configSpec := { configSpec with deviceChange := configSpec.deviceChange ++ ethCardDeviceChanges }
    if s.thunderPciDevicesFSS then
      let currentPciDevices := selectPciPassthrough virtualDevices
      let expectedPciDevices := createPCIDevices updateArgs.vmClass.hardware.devices
      let pciDeviceChanges := updatePCIDeviceChanges expectedPciDevices currentPciDevices
      .ok { configSpec with deviceChange := configSpec.deviceChange ++ pciDeviceChanges }
    else
      .ok configSpec

/-- `prePowerOnVMReconfigure`: builds the full delta, compares it with the
zero-value spec, and issues `Reconfigure` only when it differs. -/
def prePowerOnVMReconfigure (s : Session) (env : Env) (vm : VirtualMachine)
    (config : VirtualMachineConfigInfo) (updateArgs : VmUpdateArgs) :
    List HyperCall × Except String Unit :=
  match prePowerOnVMConfigSpec s env vm config updateArgs with
  | .error e => ([], .error e)
  | .ok configSpec =>
    if configSpec ≠ ({} : VirtualMachineConfigSpec) then
      ([.reconfigure configSpec], env.reconfigure)
    else
      ([], .ok ())

/-- `poweredOnVMReconfigure`: only change-block-tracking is compared; a
non-empty delta is applied and, because CBT needs a checkpoint save/restore
to take effect on a live VM, FSR is invoked after a successful
reconfigure. -/
def poweredOnVMReconfigure (env : Env) (vm : VirtualMachine)
    (config : VirtualMachineConfigInfo) : List HyperCall × Except String Unit :=
  let configSpec := updateConfigSpecChangeBlockTracking config {} vm.spec
  if configSpec ≠ ({} : VirtualMachineConfigSpec) then
    match env.reconfigure with
    | .error e => ([.reconfigure configSpec], .error e)
    | .ok _ =>
      if configSpec.changeTrackingEnabled ≠ none then
        ([.reconfigure configSpec, .fsr], env.fsr)
      else
        ([.reconfigure configSpec], .ok ())
  else
    ([], .ok ())

/-! ### Pre-power-on sequence -/

/-- `ensureNetworkInterfaces`: one provider call per desired interface, each
allocated device's key overwritten with the traditional negative range
starting at -100. -/
def ensureNetworkInterfaces (env : Env) (vm : VirtualMachine) :
    Except String (List NetworkInterfaceInfo) :=
  (List.range vm.spec.networkInterfaces.length).foldlM
    (fun acc i =>
      match env.ensureNetworkInterface i with
      | .error e => .error e
      | .ok info =>
        .ok (acc ++ [{ info with device := { info.device with key := -100 - (i : Int) } }]))
    []

/-- `fakeUpClonedNetIfList`: a synthesized interface list mirroring the
currently attached ethernet cards, each with a DHCP customization. -/
def fakeUpClonedNetIfList (config : VirtualMachineConfigInfo) : List NetworkInterfaceInfo :=
  (selectEthCards config.hardware.device).map fun card =>
    { device := card
      customization := some { macAddress := card.macAddress, adapter := { ip := some .dhcp } } }

/-- `updateVmConfigArgsTemplates`: renders every metadata value through the
template closure (parse or execute failure leaves the value untouched, which
the abstract `renderTemplate` represents). -/
def updateVmConfigArgsTemplates (env : Env) (updateArgs : VmUpdateArgs) : VmUpdateArgs :=
  match updateArgs.vmMetadata with
  | some md =>
    { updateArgs with
        vmMetadata := some { md with data := md.data.map fun kv => (kv.1, env.renderTemplate kv.1 kv.2) } }
  | none => updateArgs

/-- `ensureCNSVolumes`: every claimed persistent-volume must appear in
status and be attached. -/
def ensureCNSVolumes (vm : VirtualMachine) : Except String Unit :=
  vm.spec.volumes.foldlM
    (fun _ volume =>
      if volume.persistentVolumeClaim = none then .ok ()
      else
        match vm.status.volumes.find? fun vs => vs.name = volume.name with
        | some volumeStatus =>
          if !volumeStatus.attached then
            .error ("Persistent volume: " ++ volume.name ++ " not attached to VM")
          else .ok ()
        | none => .error ("Status update pending for persistent volume: " ++ volume.name ++ " on VM"))
    ()

/-- `prepareVMForPowerOn`: interface resolution (with the cloned-list
fallback), DNS resolution (failure logged only), optional template
rendering, reconfigure, customization, volume checks. -/
def prepareVMForPowerOn (s : Session) (env : Env) (vm : VirtualMachine)
    (config : VirtualMachineConfigInfo) (vmConfigArgs : VmConfigArgs) :
    List HyperCall × Except String Unit :=
  match ensureNetworkInterfaces env vm with
  | .error e => ([], .error e)
  | .ok netIfList0 =>
    let netIfList := if netIfList0.length = 0 then fakeUpClonedNetIfList config else netIfList0
    let dnsServers := match env.getNameservers with | .error _ => [] | .ok l => l
    let updateArgs : VmUpdateArgs :=
      { vmClass := vmConfigArgs.vmClass
        vmImage := vmConfigArgs.vmImage
        vmMetadata := vmConfigArgs.vmMetadata
        resourcePolicy := vmConfigArgs.resourcePolicy
        netIfList := netIfList
        dnsServers := dnsServers }
    let updateArgs :=
      if s.vmServiceV1Alpha2FSS then updateVmConfigArgsTemplates env updateArgs else updateArgs
    let (calls1, r1) := prePowerOnVMReconfigure s env vm config updateArgs
    match r1 with
    | .error e => (calls1, .error e)
    | .ok _ =>
      let (calls2, r2) := customizeVM env vm config updateArgs
      match r2 with
      | .error e => (calls1 ++ calls2, .error e)
      | .ok _ =>
        match ensureCNSVolumes vm with
        | .error e => (calls1 ++ calls2, .error e)
        | .ok _ => (calls1 ++ calls2, .ok ())

/-! ### Affinity attachment and status projection -/

/-- `attachTagsAndModules`. -/
def attachTagsAndModules (s : Session) (env : Env) (vm : VirtualMachine)
    (resourcePolicy : VirtualMachineSetResourcePolicy) :
    List HyperCall × Except String Unit :=
  let clusterModuleName := vm.annotation ClusterModuleNameKey
  let providerTagsName := vm.annotation ProviderTagsAnnotationKey
  if clusterModuleName = "" ∨ providerTagsName = "" then ([], .ok ())
  else
    let moduleUuid :=
      ((resourcePolicy.clusterModules.find? fun m => m.groupName = clusterModuleName).map
        fun m => m.moduleUuid).getD ""
    if moduleUuid = "" then
      ([], .error ("ClusterModule " ++ clusterModuleName ++ " to not found"))
    else
      match env.isVmMemberOfClusterModule with
      | .error e => ([], .error e)
      | .ok isMember =>
        let (calls1, r1) :=
          if !isMember then
            ([HyperCall.addVmToClusterModule moduleUuid], env.addVmToClusterModule)
          else ([], Except.ok ())
        match r1 with
        | .error e => (calls1, .error e)
        | .ok _ =>
          let tagName := (mapLookup s.tagInfo providerTagsName).getD ""
          let tagCategoryName := (mapLookup s.tagInfo ProviderTagCategoryNameKey).getD ""
          (calls1 ++ [.attachTagToVm tagName tagCategoryName], env.attachTagToVm)

def ipCIDRNotation (ipAddress : String) (prefixLength : Int) : String :=
  ipAddress ++ "/" ++ toString prefixLength

def nicInfoToNetworkIfStatus (nicInfo : GuestNicInfo) : NetworkInterfaceStatus :=
  { connected := nicInfo.connected
    macAddress := nicInfo.macAddress
    ipAddresses := nicInfo.ipConfig.ipAddress.map fun a => ipCIDRNotation a.ipAddress a.prefixLength }

/-- `k8serrors.NewAggregate`: nil on an empty list, otherwise one error
combining the collected messages. -/
def aggregateErrors (errs : List String) : Option String :=
  if errs.isEmpty then none else some (String.intercalate "; " errs)

/-- `updateVMStatus`: on a property-fetch error the status is returned
untouched with the error; otherwise every projected field is overwritten
(host-name lookup failure is collected, leaves the old host value, and is
aggregated into the returned error). -/
def updateVMStatus (env : Env) (status : VirtualMachineStatus) :
    VirtualMachineStatus × Option String :=
  match env.getStatusProperties with
  | .error e => (status, some e)
  | .ok moVM =>
    let summary := moVM.summary
    let status := { status with
      phase := "Created"
      powerState := summary.runtime.powerState
      uniqueID := env.moRefValue
      biosUUID := summary.config.uuid
      instanceUUID := summary.config.instanceUuid }
    let hostStep : VirtualMachineStatus × List String :=
      match summary.runtime.host with
      | some _hostRef =>
        match env.hostObjectName with
        | .error e => (status, [e])
        | .ok hostName => ({ status with host := hostName }, [])
      | none => ({ status with host := "" }, [])
    let status := hostStep.1
    let errs := hostStep.2
    let status :=
      match moVM.guest with
      | some guest =>
        { status with
            vmIp := guest.ipAddress
            networkInterfaces := guest.net.map nicInfoToNetworkIfStatus }
      | none => { status with vmIp := "", networkInterfaces := [] }
    let status :=
      match moVM.configChangeTracking with
      | some cbt => { status with changeBlockTracking := cbt }
      | none => { status with changeBlockTracking := none }
    (status, aggregateErrors errs)

/-! ### Top-level convergence pass -/

/-- The outcome of one `UpdateVirtualMachine` pass: a returned error, a
normal return, or a Go runtime panic. -/
inductive UpdateOutcome where
  | ok
  | error (msg : String)
  | panicked (msg : String)
deriving DecidableEq, Repr

/-- `UpdateVirtualMachine`: the top-level convergence pass.  Returns the VM
with its mutated status, the trace of hypervisor write calls, and the
outcome. -/
def UpdateVirtualMachine (s : Session) (env : Env) (vm : VirtualMachine)
    (vmConfigArgs : VmConfigArgs) : VirtualMachine × List HyperCall × UpdateOutcome :=
  match env.getVirtualMachine with
  | .error e => (vm, [], .error e)
  | .ok _ =>
  match env.getProperties with
  | .error e => (vm, [], .error e)
  | .ok moVM =>
    let isOff := moVM.runtime.powerState = VirtualMachinePowerStatePoweredOff
    -- `vmCtx.VM.Status.BiosUUID = moVM.Config.Uuid` dereferences `moVM.Config`
    -- with no nil check: a nil config panics here, before the nil-config
    -- guard inside the powered-on branch below can run.
    match moVM.config with
    | none => (vm, [], .panicked "runtime error: invalid memory address or nil pointer dereference")
    | some config =>
      let vm := { vm with status := { vm.status with biosUUID := config.uuid } }
      let step : List HyperCall × Option String :=
        match vm.spec.powerState with
        | .poweredOff =>
          if !isOff then
            match env.setPowerState .poweredOff with
            | .error e => ([.setPowerState .poweredOff], some e)
            | .ok _ => ([.setPowerState .poweredOff], none)
          else ([], none)
        | .poweredOn =>
          -- The Go `if config == nil` guard sits here; under the source as
          -- written it is unreachable (the BiosUUID assignment above has
          -- already dereferenced a nil config).
          if isOff then
            let pre := prepareVMForPowerOn s env vm config vmConfigArgs
            match pre.2 with
            | .error e => (pre.1, some e)
            | .ok _ =>
              match env.setPowerState .poweredOn with
              | .error e => (pre.1 ++ [.setPowerState .poweredOn], some e)
              | .ok _ => (pre.1 ++ [.setPowerState .poweredOn], none)
          else
            let rec1 := poweredOnVMReconfigure env vm config
            match rec1.2 with
            | .error e => (rec1.1, some e)
            | .ok _ => (rec1.1, none)
      match step with
      | (calls, some e) => (vm, calls, .error e)
      | (calls, none) =>
        let statusStep := updateVMStatus env vm.status
        let vm := { vm with status := statusStep.1 }
        match statusStep.2 with
        | some e => (vm, calls, .error e)
        | none =>
          let att := attachTagsAndModules s env vm vmConfigArgs.resourcePolicy
          match att.2 with
          | .error e => (vm, calls ++ att.1, .error e)
          | .ok _ => (vm, calls ++ att.1, .ok)

/-! ### Device-matcher lemmas -/

/-- The leftover pool of the matcher loop is a sublist of the initial
pool (the loop only erases pool entries). -/
theorem matchDevicesLoop_pool_sublist {D : Type} (m : D → D → Bool) :
    ∀ (es pool : List D), List.Sublist (matchDevicesLoop m es pool).2 pool
  | [], pool => by simp [matchDevicesLoop]
  | e :: es, pool => by
    unfold matchDevicesLoop
    cases h : pool.findIdx? (fun c => m e c) with
    | none => simpa using matchDevicesLoop_pool_sublist m es pool
    | some i =>
      exact (matchDevicesLoop_pool_sublist m es _).trans (List.eraseIdx_sublist pool i)

/-- Every unmatched expected device reported by the loop comes from the
expected list. -/
theorem matchDevicesLoop_adds_subset {D : Type} (m : D → D → Bool) :
    ∀ (es pool : List D), ∀ d ∈ (matchDevicesLoop m es pool).1, d ∈ es
  | [], pool => by simp [matchDevicesLoop]
  | e :: es, pool => by
    intro d hd
    unfold matchDevicesLoop at hd
    cases h : pool.findIdx? (fun c => m e c) with
    | none =>
      rw [h] at hd
      simp only [List.mem_cons] at hd
      rcases hd with rfl | hd
      · exact List.mem_cons_self _ _
      · exact List.mem_cons_of_mem _ (matchDevicesLoop_adds_subset m es pool d hd)
    | some i =>
      rw [h] at hd
      exact List.mem_cons_of_mem _ (matchDevicesLoop_adds_subset m es _ d hd)

/-- Unmatched-expected count plus matched count is the expected count. -/
theorem matchDevicesLoop_adds_length {D : Type} (m : D → D → Bool) :
    ∀ (es pool : List D),
      (matchDevicesLoop m es pool).1.length + matchedCount m es pool = es.length
  | [], pool => by simp [matchDevicesLoop, matchedCount]
  | e :: es, pool => by
    unfold matchDevicesLoop matchedCount
    cases h : pool.findIdx? (fun c => m e c) with
    | none =>
      simpa [Nat.succ_add] using congrArg Nat.succ (matchDevicesLoop_adds_length m es pool)
    | some i =>
      have := matchDevicesLoop_adds_length m es (pool.eraseIdx i)
      simp only [List.length_cons]
      omega

/-- Leftover-pool count plus matched count is the initial pool count. -/
theorem matchDevicesLoop_pool_length {D : Type} (m : D → D → Bool) :
    ∀ (es pool : List D),
      (matchDevicesLoop m es pool).2.length + matchedCount m es pool = pool.length
  | [], pool => by simp [matchDevicesLoop, matchedCount]
  | e :: es, pool => by
    unfold matchDevicesLoop matchedCount
    cases h : pool.findIdx? (fun c => m e c) with
    | none => simpa using matchDevicesLoop_pool_length m es pool
    | some i =>
      have hi : i < pool.length := (List.findIdx?_eq_some_iff_findIdx_eq.mp h).1
      have hlen : (pool.eraseIdx i).length = pool.length - 1 := by
        rw [List.length_eraseIdx]
        simp [hi]
      have := matchDevicesLoop_pool_length m es (pool.eraseIdx i)
      dsimp only
      omega

/-- A device reported unmatched on the expected side cannot also be left in
the pool, provided the match test is reflexive on the pool's devices: when
the loop skipped it, the (still present) equal pool entry would have
matched. -/
theorem matchDevicesLoop_no_overlap {D : Type} (m : D → D → Bool) :
    ∀ (es pool : List D), (∀ d ∈ pool, m d d = true) →
      ∀ d, d ∈ (matchDevicesLoop m es pool).1 → d ∈ (matchDevicesLoop m es pool).2 → False
  | [], pool => by simp [matchDevicesLoop]
  | e :: es, pool => by
    intro hrefl d hadd hpool
    unfold matchDevicesLoop at hadd hpool
    cases h : pool.findIdx? (fun c => m e c) with
    | none =>
      rw [h] at hadd hpool
      simp only [List.mem_cons] at hadd
      rcases hadd with rfl | hadd
      · have hdpool : d ∈ pool :=
          (matchDevicesLoop_pool_sublist m es pool).mem hpool
        have hfalse : m d d = false := by
          have := List.findIdx?_eq_none_iff.mp h
          simpa using this d hdpool
        have htrue : m d d = true := hrefl d hdpool
        simp [htrue] at hfalse
      · exact matchDevicesLoop_no_overlap m es pool hrefl d hadd hpool
    | some i =>
      rw [h] at hadd hpool
      refine matchDevicesLoop_no_overlap m es (pool.eraseIdx i) ?_ d hadd hpool
      intro x hx
      exact hrefl x ((List.eraseIdx_sublist pool i).mem hx)

/-- When the expected and current lists match pairwise in order, the loop
matches every pair off: no unmatched device on either side.  (The head
always matches at index 0, so the pool is consumed head-first.) -/
theorem matchDevicesLoop_pairwise {D : Type} (m : D → D → Bool) :
    ∀ (es pool : List D), List.Forall₂ (fun e c => m e c = true) es pool →
      (matchDevicesLoop m es pool).1 = [] ∧ (matchDevicesLoop m es pool).2 = []
  | [], pool => by
    intro h
    cases h
    simp [matchDevicesLoop]
  | e :: es, pool => by
    intro h
    cases h with
    | cons hec hrest =>
      rename_i c cs
      have hidx : (c :: cs).findIdx? (fun x => m e x) = some 0 := by
        simp [List.findIdx?_cons, hec]
      unfold matchDevicesLoop
      rw [hidx]
      simpa [List.eraseIdx] using matchDevicesLoop_pairwise m es cs hrest

/-- Decidable statement of "all Remove entries precede all Add entries":
after the first Add, no Remove appears. -/
def removesBeforeAdds (changes : List VirtualDeviceConfigSpec) : Bool :=
  (changes.dropWhile fun c => c.operation != .add).all fun c => c.operation != .remove

/-- A list of Removes followed by a list of Adds is ordered removes-first. -/
theorem removesBeforeAdds_append (l1 l2 : List VirtualDeviceConfigSpec)
    (h1 : ∀ c ∈ l1, c.operation = .remove) (h2 : ∀ c ∈ l2, c.operation = .add) :
    removesBeforeAdds (l1 ++ l2) = true := by
  induction l1 with
  | nil =>
    cases l2 with
    | nil => simp [removesBeforeAdds]
    | cons c cs =>
      have hc := h2 c (List.mem_cons_self _ _)
      simp only [removesBeforeAdds, List.nil_append, List.dropWhile_cons, hc]
      simp only [bne_self_eq_false, Bool.false_eq_true, if_false, List.all_cons, Bool.and_eq_true]
      refine ⟨by simp [hc], ?_⟩
      rw [List.all_eq_true]
      intro x hx
      have := h2 x (List.mem_cons_of_mem _ hx)
      simp [this]
  | cons c cs ih =>
    have hc := h1 c (List.mem_cons_self _ _)
    have := ih (fun x hx => h1 x (List.mem_cons_of_mem _ hx))
    simpa [removesBeforeAdds, List.dropWhile_cons, hc] using this

/-! ### Config-spec builder lemmas -/

/-- The append-if-absent loop of `updateConfigSpecExtraConfig` appends
exactly the accumulator entries whose key is absent from the current
extra-config, in order, and touches no other field. -/
theorem extraConfig_foldl_filter (cur : List (String × String)) :
    ∀ (l : List (String × String)) (cs : VirtualMachineConfigSpec),
      l.foldl
        (fun cs kv =>
          if mapLookup cur kv.1 = none then
            { cs with extraConfig := cs.extraConfig ++ [⟨kv.1, kv.2⟩] }
          else cs)
        cs =
      { cs with extraConfig :=
          cs.extraConfig ++
            ((l.filter fun kv => (mapLookup cur kv.1).isNone).map
              fun kv => (⟨kv.1, kv.2⟩ : OptionValue)) }
  | [], cs => by simp
  | kv :: l, cs => by
    simp only [List.foldl_cons, List.filter_cons]
    by_cases h : mapLookup cur kv.1 = none
    · rw [if_pos h, extraConfig_foldl_filter cur l]
      have hb : (mapLookup cur kv.1).isNone = true := by simp [h]
      simp [hb]
    · rw [if_neg h, extraConfig_foldl_filter cur l]
      have hb : (mapLookup cur kv.1).isNone = false := by
        cases hm : mapLookup cur kv.1 with
        | none => exact absurd hm h
        | some v => rfl
      simp [hb]

/-- Full characterization of `updateConfigSpecExtraConfig`: the delta's
extra-config grows by the absent-key accumulator entries plus the legacy
compatibility entry when its condition holds; nothing else changes. -/
theorem updateConfigSpecExtraConfig_eq (config : VirtualMachineConfigInfo)
    (cs : VirtualMachineConfigSpec) (vmImage : VirtualMachineImage)
    (vmClassSpec : VirtualMachineClassSpec) (vm : VirtualMachine)
    (vmMetadata : Option VmMetadata) (globalExtraConfig : List (String × String))
    (renderTemplateFn : String → String → String) (thunderPciDevicesFSS : Bool) :
    updateConfigSpecExtraConfig config cs vmImage vmClassSpec vm vmMetadata
        globalExtraConfig renderTemplateFn thunderPciDevicesFSS =
      { cs with extraConfig :=
          cs.extraConfig ++
            (((extraConfigToAppend vmClassSpec vm vmMetadata globalExtraConfig
                  renderTemplateFn thunderPciDevicesFSS).filter
                fun kv => (mapLookup (currentExtraConfigOf config) kv.1).isNone).map
              fun kv => (⟨kv.1, kv.2⟩ : OptionValue)) ++
            (if vmImage.v1alpha1Compatible ∧
                (mapLookup (currentExtraConfigOf config)
                    VMOperatorV1Alpha1ExtraConfigKey).getD "" = VMOperatorV1Alpha1ConfigReady
             then [⟨VMOperatorV1Alpha1ExtraConfigKey, VMOperatorV1Alpha1ConfigEnabled⟩]
             else []) } := by
  unfold updateConfigSpecExtraConfig
  dsimp only
  rw [extraConfig_foldl_filter]
  split
  · simp [List.append_assoc]
  · simp

/-- `updateHardwareConfigSpec` never touches the device-change list. -/
theorem updateHardwareConfigSpec_deviceChange (config : VirtualMachineConfigInfo)
    (cs : VirtualMachineConfigSpec) (k : VirtualMachineClassSpec) :
    (updateHardwareConfigSpec config cs k).deviceChange = cs.deviceChange := by
  simp only [updateHardwareConfigSpec]
  split <;> split <;> split <;> split <;> rfl

theorem updateConfigSpecCPUAllocation_deviceChange (config : VirtualMachineConfigInfo)
    (cs : VirtualMachineConfigSpec) (k : VirtualMachineClassSpec) (freq : Int) :
    (updateConfigSpecCPUAllocation config cs k freq).deviceChange = cs.deviceChange := by
  unfold updateConfigSpecCPUAllocation
  dsimp only
  simp only [apply_ite VirtualMachineConfigSpec.deviceChange, ite_self]

theorem updateConfigSpecMemoryAllocation_deviceChange (config : VirtualMachineConfigInfo)
    (cs : VirtualMachineConfigSpec) (k : VirtualMachineClassSpec) :
    (updateConfigSpecMemoryAllocation config cs k).deviceChange = cs.deviceChange := by
  unfold updateConfigSpecMemoryAllocation
  dsimp only
  simp only [apply_ite VirtualMachineConfigSpec.deviceChange, ite_self]

theorem updateConfigSpecVAppConfig_deviceChange (config : VirtualMachineConfigInfo)
    (cs : VirtualMachineConfigSpec) (vmMetadata : Option VmMetadata) :
    (updateConfigSpecVAppConfig config cs vmMetadata).deviceChange = cs.deviceChange := by
  unfold updateConfigSpecVAppConfig
  rcases config.vAppConfig with _ | info <;> rcases vmMetadata with _ | md <;> try rfl
  dsimp only
  split
  · split <;> rfl
  · rfl

theorem updateConfigSpecChangeBlockTracking_deviceChange (config : VirtualMachineConfigInfo)
    (cs : VirtualMachineConfigSpec) (spec : VirtualMachineSpec) :
    (updateConfigSpecChangeBlockTracking config cs spec).deviceChange = cs.deviceChange := by
  unfold updateConfigSpecChangeBlockTracking
  rcases h : spec.advancedOptions.bind fun a => a.changeBlockTracking with _ | b
  · rfl
  · dsimp only
    split <;> rfl

/-- The pure builder populates no device change. -/
theorem updateConfigSpec_deviceChange (config : VirtualMachineConfigInfo)
    (vmImage : VirtualMachineImage) (vmClassSpec : VirtualMachineClassSpec)
    (vmMetadata : Option VmMetadata) (globalExtraConfig : List (String × String))
    (renderTemplateFn : String → String → String) (thunderPciDevicesFSS : Bool)
    (minCPUFreq : Int) (vm : VirtualMachine) :
    (updateConfigSpec config vmImage vmClassSpec vmMetadata globalExtraConfig
        renderTemplateFn thunderPciDevicesFSS minCPUFreq vm).deviceChange = [] := by
  unfold updateConfigSpec
  rw [updateConfigSpecChangeBlockTracking_deviceChange, updateConfigSpecVAppConfig_deviceChange,
    updateConfigSpecExtraConfig_eq]
  dsimp only
  rw [updateConfigSpecMemoryAllocation_deviceChange, updateConfigSpecCPUAllocation_deviceChange,
    updateHardwareConfigSpec_deviceChange]

/-! No-op lemmas: each sub-builder leaves the delta untouched when the
current config already agrees with the desired state on its concern. -/

theorem updateHardwareConfigSpec_noop (config : VirtualMachineConfigInfo)
    (cs : VirtualMachineConfigSpec) (k : VirtualMachineClassSpec)
    (h1 : config.annotation = VCVMAnnotation)
    (h2 : config.hardware.numCPU = k.hardware.cpus)
    (h3 : config.hardware.memoryMB = memoryQuantityToMb k.hardware.memory)
    (h4 : config.managedBy ≠ none) :
    updateHardwareConfigSpec config cs k = cs := by
  simp [updateHardwareConfigSpec, h1, h2, h3, h4]

theorem updateConfigSpecCPUAllocation_noop (config : VirtualMachineConfigInfo)
    (cs : VirtualMachineConfigSpec) (k : VirtualMachineClassSpec) (freq : Int)
    (hreq : k.policies.resources.requests.cpu = 0 ∨
      (config.cpuAllocation.bind fun a => a.reservation) =
        some (CpuQuantityToMhz k.policies.resources.requests.cpu freq))
    (hlim : k.policies.resources.limits.cpu = 0 ∨
      (config.cpuAllocation.bind fun a => a.limit) =
        some (CpuQuantityToMhz k.policies.resources.limits.cpu freq)) :
    updateConfigSpecCPUAllocation config cs k freq = cs := by
  unfold updateConfigSpecCPUAllocation
  rcases hreq with h | h <;> rcases hlim with h' | h' <;> simp [h, h']

theorem updateConfigSpecMemoryAllocation_noop (config : VirtualMachineConfigInfo)
    (cs : VirtualMachineConfigSpec) (k : VirtualMachineClassSpec)
    (hreq : k.policies.resources.requests.memory = 0 ∨
      (config.memoryAllocation.bind fun a => a.reservation) =
        some (memoryQuantityToMb k.policies.resources.requests.memory))
    (hlim : k.policies.resources.limits.memory = 0 ∨
      (config.memoryAllocation.bind fun a => a.limit) =
        some (memoryQuantityToMb k.policies.resources.limits.memory)) :
    updateConfigSpecMemoryAllocation config cs k = cs := by
  unfold updateConfigSpecMemoryAllocation
  rcases hreq with h | h <;> rcases hlim with h' | h' <;> simp [h, h']

theorem updateConfigSpecExtraConfig_noop (config : VirtualMachineConfigInfo)
    (cs : VirtualMachineConfigSpec) (vmImage : VirtualMachineImage)
    (vmClassSpec : VirtualMachineClassSpec) (vm : VirtualMachine)
    (vmMetadata : Option VmMetadata) (globalExtraConfig : List (String × String))
    (renderTemplateFn : String → String → String) (thunderPciDevicesFSS : Bool)
    (hpresent : ∀ kv ∈ extraConfigToAppend vmClassSpec vm vmMetadata globalExtraConfig
        renderTemplateFn thunderPciDevicesFSS,
      (mapLookup (currentExtraConfigOf config) kv.1).isSome)
    (hlegacy : ¬(vmImage.v1alpha1Compatible = true ∧
      (mapLookup (currentExtraConfigOf config) VMOperatorV1Alpha1ExtraConfigKey).getD "" =
        VMOperatorV1Alpha1ConfigReady)) :
    updateConfigSpecExtraConfig config cs vmImage vmClassSpec vm vmMetadata
        globalExtraConfig renderTemplateFn thunderPciDevicesFSS = cs := by
  rw [updateConfigSpecExtraConfig_eq]
  have hfilter :
      ((extraConfigToAppend vmClassSpec vm vmMetadata globalExtraConfig renderTemplateFn
          thunderPciDevicesFSS).filter
        fun kv => (mapLookup (currentExtraConfigOf config) kv.1).isNone) = [] := by
    rw [List.filter_eq_nil_iff]
    intro kv hkv
    have := hpresent kv hkv
    simp only [Option.isSome_iff_ne_none] at this
    simp [Option.isNone_iff_eq_none, this]
  rw [hfilter, if_neg ?_]
  · simp
  · simpa using hlegacy

theorem updateConfigSpecVAppConfig_noop (config : VirtualMachineConfigInfo)
    (cs : VirtualMachineConfigSpec) (vmMetadata : Option VmMetadata)
    (h : config.vAppConfig = none ∨ vmMetadata = none ∨
      (∃ md, vmMetadata = some md ∧ md.transport ≠ VirtualMachineMetadataOvfEnvTransport) ∨
      (∃ md info, vmMetadata = some md ∧ config.vAppConfig = some info ∧
        GetMergedvAppConfigSpec md.data info.property = none)) :
    updateConfigSpecVAppConfig config cs vmMetadata = cs := by
  unfold updateConfigSpecVAppConfig
  rcases h with h | h | ⟨md, rfl, hmd⟩ | ⟨md, info, rfl, hinfo, hmerge⟩
  · rw [h]
  · rw [h]
    rcases config.vAppConfig with _ | info <;> rfl
  · rcases hc : config.vAppConfig with _ | info
    · rfl
    · dsimp only
      rw [if_neg hmd]
  · rw [hinfo]
    dsimp only
    split
    · rw [hmerge]
    · rfl

theorem updateConfigSpecChangeBlockTracking_noop (config : VirtualMachineConfigInfo)
    (cs : VirtualMachineConfigSpec) (spec : VirtualMachineSpec)
    (h : spec.advancedOptions.bind (fun a => a.changeBlockTracking) = none ∨
      spec.advancedOptions.bind (fun a => a.changeBlockTracking) = config.changeTrackingEnabled) :
    updateConfigSpecChangeBlockTracking config cs spec = cs := by
  unfold updateConfigSpecChangeBlockTracking
  rcases h with h | h
  · rw [h]
  · rcases hb : spec.advancedOptions.bind fun a => a.changeBlockTracking with _ | b
    · rfl
    · rw [hb] at h
      dsimp only
      rw [if_neg]
      simp [h.symm]

/-- When the desired flag is set and differs, the CBT sub-builder writes
exactly the tracking flag. -/
theorem updateConfigSpecChangeBlockTracking_set (config : VirtualMachineConfigInfo)
    (cs : VirtualMachineConfigSpec) (spec : VirtualMachineSpec) (b : Bool)
    (h1 : spec.advancedOptions.bind (fun a => a.changeBlockTracking) = some b)
    (h2 : config.changeTrackingEnabled ≠ some b) :
    updateConfigSpecChangeBlockTracking config cs spec =
      { cs with changeTrackingEnabled := some b } := by
  unfold updateConfigSpecChangeBlockTracking
  rw [h1]
  dsimp only
  rw [if_pos h2]

/-! ### Matcher output helpers -/

/-- The common output shape of both device-change functions. -/
def matcherOut {D : Type} (m : D → D → Bool) (wrap : D → VirtualDevice)
    (expected current : List D) : List VirtualDeviceConfigSpec :=
  (matchDevicesLoop m expected current).2.map (fun dev => ⟨.remove, wrap dev⟩) ++
    (matchDevicesLoop m expected current).1.map (fun dev => ⟨.add, wrap dev⟩)

theorem updateEthCardDeviceChanges_eq_matcherOut
    (expected current : List VirtualEthernetCard) :
    updateEthCardDeviceChanges expected current =
      matcherOut ethDeviceMatch VirtualDevice.eth expected current := rfl

theorem updatePCIDeviceChanges_eq_matcherOut
    (expected current : List VirtualPCIPassthrough) :
    updatePCIDeviceChanges expected current =
      matcherOut pciDeviceMatch VirtualDevice.pci expected current := rfl

theorem matcherOut_length {D : Type} (m : D → D → Bool) (wrap : D → VirtualDevice)
    (expected current : List D) :
    (matcherOut m wrap expected current).length =
      (current.length - matchedCount m expected current) +
        (expected.length - matchedCount m expected current) := by
  have h1 := matchDevicesLoop_adds_length m expected current
  have h2 := matchDevicesLoop_pool_length m expected current
  unfold matcherOut
  rw [List.length_append, List.length_map, List.length_map]
  omega

theorem matchedCount_le_expected {D : Type} (m : D → D → Bool)
    (expected current : List D) : matchedCount m expected current ≤ expected.length := by
  have := matchDevicesLoop_adds_length m expected current
  omega

theorem matchedCount_le_current {D : Type} (m : D → D → Bool)
    (expected current : List D) : matchedCount m expected current ≤ current.length := by
  have := matchDevicesLoop_pool_length m expected current
  omega

theorem matcherOut_add_mem {D : Type} (m : D → D → Bool) (wrap : D → VirtualDevice)
    (expected current : List D) (ch : VirtualDeviceConfigSpec)
    (hch : ch ∈ matcherOut m wrap expected current)
    (hop : ch.operation = .add) : ∃ c ∈ expected, ch.device = wrap c := by
  unfold matcherOut at hch
  rcases List.mem_append.mp hch with h | h
  · rcases List.mem_map.mp h with ⟨dev, _, rfl⟩
    simp at hop
  · rcases List.mem_map.mp h with ⟨dev, hdev, rfl⟩
    exact ⟨dev, matchDevicesLoop_adds_subset m expected current dev hdev, rfl⟩

theorem matcherOut_remove_mem {D : Type} (m : D → D → Bool) (wrap : D → VirtualDevice)
    (expected current : List D) (ch : VirtualDeviceConfigSpec)
    (hch : ch ∈ matcherOut m wrap expected current)
    (hop : ch.operation = .remove) : ∃ c ∈ current, ch.device = wrap c := by
  unfold matcherOut at hch
  rcases List.mem_append.mp hch with h | h
  · rcases List.mem_map.mp h with ⟨dev, hdev, rfl⟩
    exact ⟨dev, (matchDevicesLoop_pool_sublist m expected current).mem hdev, rfl⟩
  · rcases List.mem_map.mp h with ⟨dev, _, rfl⟩
    simp at hop

theorem matcherOut_no_overlap {D : Type} (m : D → D → Bool) (wrap : D → VirtualDevice)
    (hinj : ∀ a b, wrap a = wrap b → a = b) (expected current : List D)
    (hrefl : ∀ d ∈ current, m d d = true) (d : D) :
    ¬((⟨.add, wrap d⟩ : VirtualDeviceConfigSpec) ∈ matcherOut m wrap expected current ∧
      (⟨.remove, wrap d⟩ : VirtualDeviceConfigSpec) ∈ matcherOut m wrap expected current) := by
  rintro ⟨hadd, hrem⟩
  have hd1 : d ∈ (matchDevicesLoop m expected current).1 := by
    unfold matcherOut at hadd
    rcases List.mem_append.mp hadd with h | h
    · rcases List.mem_map.mp h with ⟨dev, _, heq⟩
      exact absurd (congrArg VirtualDeviceConfigSpec.operation heq) (by simp)
    · rcases List.mem_map.mp h with ⟨dev, hdev, heq⟩
      have := hinj dev d (congrArg VirtualDeviceConfigSpec.device heq)
      exact this ▸ hdev
  have hd2 : d ∈ (matchDevicesLoop m expected current).2 := by
    unfold matcherOut at hrem
    rcases List.mem_append.mp hrem with h | h
    · rcases List.mem_map.mp h with ⟨dev, hdev, heq⟩
      have := hinj dev d (congrArg VirtualDeviceConfigSpec.device heq)
      exact this ▸ hdev
    · rcases List.mem_map.mp h with ⟨dev, _, heq⟩
      exact absurd (congrArg VirtualDeviceConfigSpec.operation heq) (by simp)
  exact matchDevicesLoop_no_overlap m expected current hrefl d hd1 hd2

theorem matcherOut_removesBeforeAdds {D : Type} (m : D → D → Bool)
    (wrap : D → VirtualDevice) (expected current : List D) :
    removesBeforeAdds (matcherOut m wrap expected current) = true := by
  unfold matcherOut
  apply removesBeforeAdds_append
  · intro c hc
    rcases List.mem_map.mp hc with ⟨dev, _, rfl⟩
    rfl
  · intro c hc
    rcases List.mem_map.mp hc with ⟨dev, _, rfl⟩
    rfl

/-- A current-side ethernet card the matcher can recognize against itself:
any non-nil backing. -/
def goodEthCard (c : VirtualEthernetCard) : Bool := c.backing.isSome

/-- A current-side PCI passthrough device the matcher can recognize against
itself: a non-nil backing whose dynamic allowed-device list, if any, is
nonempty. -/
def goodPciDevice (p : VirtualPCIPassthrough) : Bool :=
  match p.backing with
  | none => false
  | some (.vmiop _) => true
  | some (.dynamic allowed _) => !allowed.isEmpty

theorem ethDeviceMatch_refl (c : VirtualEthernetCard) (h : goodEthCard c = true) :
    ethDeviceMatch c c = true := by
  rcases hb : c.backing with _ | b
  · simp [goodEthCard, hb] at h
  · unfold ethDeviceMatch ethCardMatch ethBackingMatch
    rw [hb]
    cases b <;> simp

theorem pciDeviceMatch_refl (p : VirtualPCIPassthrough) (h : goodPciDevice p = true) :
    pciDeviceMatch p p = true := by
  unfold goodPciDevice at h
  unfold pciDeviceMatch pciBackingMatch
  rcases hb : p.backing with _ | b
  · rw [hb] at h
    simp at h
  · rw [hb] at h
    cases b with
    | vmiop g => simp
    | dynamic allowed label =>
      cases allowed with
      | nil => simp at h
      | cons a rest => simp

/-! ### Claims about the device matcher -/

/-- C2 counterexample: a card with a nil backing, present identically in the
expected and the current list, is emitted both as an Add and as a Remove —
the matcher's backing comparison skips every nil current backing, so the
device never matches, not even against itself.  This refutes the claim's
final conjunct (no device appears in both an Add and a Remove). -/
theorem claim_C2_counterexample :
    (⟨.add, .eth {}⟩ : VirtualDeviceConfigSpec) ∈ updateEthCardDeviceChanges [{}] [{}] ∧
      (⟨.remove, .eth {}⟩ : VirtualDeviceConfigSpec) ∈ updateEthCardDeviceChanges [{}] [{}] := by
  decide

/-- C2 (amended): for both device-change functions — ethernet cards and PCI
passthrough devices — the change-list length equals (unmatched current
count) + (unmatched expected count), every Add device appears in the
expected list, every Remove device appears in the current list, and —
provided every current device has a recognizable backing (non-nil; for a
dynamic PCI backing also a nonempty allowed-device list) — no device
appears in both an Add and a Remove. -/
theorem claim_C2 :
    (∀ expected current : List VirtualEthernetCard,
      (matchedCount ethDeviceMatch expected current ≤ expected.length ∧
        matchedCount ethDeviceMatch expected current ≤ current.length ∧
        (updateEthCardDeviceChanges expected current).length =
          (current.length - matchedCount ethDeviceMatch expected current) +
            (expected.length - matchedCount ethDeviceMatch expected current)) ∧
      (∀ ch ∈ updateEthCardDeviceChanges expected current,
        ch.operation = .add → ∃ c ∈ expected, ch.device = .eth c) ∧
      (∀ ch ∈ updateEthCardDeviceChanges expected current,
        ch.operation = .remove → ∃ c ∈ current, ch.device = .eth c) ∧
      ((∀ d ∈ current, goodEthCard d = true) → ∀ d : VirtualEthernetCard,
        ¬((⟨.add, .eth d⟩ : VirtualDeviceConfigSpec) ∈ updateEthCardDeviceChanges expected current ∧
          (⟨.remove, .eth d⟩ : VirtualDeviceConfigSpec) ∈ updateEthCardDeviceChanges expected current))) ∧
    (∀ expected current : List VirtualPCIPassthrough,
      (matchedCount pciDeviceMatch expected current ≤ expected.length ∧
        matchedCount pciDeviceMatch expected current ≤ current.length ∧
        (updatePCIDeviceChanges expected current).length =
          (current.length - matchedCount pciDeviceMatch expected current) +
            (expected.length - matchedCount pciDeviceMatch expected current)) ∧
      (∀ ch ∈ updatePCIDeviceChanges expected current,
        ch.operation = .add → ∃ c ∈ expected, ch.device = .pci c) ∧
      (∀ ch ∈ updatePCIDeviceChanges expected current,
        ch.operation = .remove → ∃ c ∈ current, ch.device = .pci c) ∧
      ((∀ d ∈ current, goodPciDevice d = true) → ∀ d : VirtualPCIPassthrough,
        ¬((⟨.add, .pci d⟩ : VirtualDeviceConfigSpec) ∈ updatePCIDeviceChanges expected current ∧
          (⟨.remove, .pci d⟩ : VirtualDeviceConfigSpec) ∈ updatePCIDeviceChanges expected current))) := by
  constructor
  · intro expected current
    rw [updateEthCardDeviceChanges_eq_matcherOut]
    refine ⟨⟨matchedCount_le_expected _ _ _, matchedCount_le_current _ _ _,
      matcherOut_length _ _ _ _⟩,
      fun ch hch hop => matcherOut_add_mem _ _ _ _ ch hch hop,
      fun ch hch hop => matcherOut_remove_mem _ _ _ _ ch hch hop,
      fun hgood d => ?_⟩
    exact matcherOut_no_overlap ethDeviceMatch VirtualDevice.eth
      (fun a b h => by injection h) expected current
      (fun x hx => ethDeviceMatch_refl x (hgood x hx)) d
  · intro expected current
    rw [updatePCIDeviceChanges_eq_matcherOut]
    refine ⟨⟨matchedCount_le_expected _ _ _, matchedCount_le_current _ _ _,
      matcherOut_length _ _ _ _⟩,
      fun ch hch hop => matcherOut_add_mem _ _ _ _ ch hch hop,
      fun ch hch hop => matcherOut_remove_mem _ _ _ _ ch hch hop,
      fun hgood d => ?_⟩
    exact matcherOut_no_overlap pciDeviceMatch VirtualDevice.pci
      (fun a b h => by injection h) expected current
      (fun x hx => pciDeviceMatch_refl x (hgood x hx)) d

/-- C2 witness: the amended no-overlap conjunct applied at a concrete
input whose devices all have recognizable backings. -/
theorem claim_C2_witness :
    ¬((⟨.add, .eth { backing := some (.network "netA") }⟩ : VirtualDeviceConfigSpec) ∈
        updateEthCardDeviceChanges [{ backing := some (.network "netA") }]
          [{ backing := some (.network "netA") }] ∧
      (⟨.remove, .eth { backing := some (.network "netA") }⟩ : VirtualDeviceConfigSpec) ∈
        updateEthCardDeviceChanges [{ backing := some (.network "netA") }]
          [{ backing := some (.network "netA") }]) :=
  (claim_C2.1 [{ backing := some (.network "netA") }]
      [{ backing := some (.network "netA") }]).2.2.2 (by decide) _

/-! ### C3: remove-before-add ordering -/

/-- Concrete inputs for the C3 counterexample: the session has the PCI
feature flag on, the VM has one attached PCI passthrough device and no
ethernet card, and one new network interface is desired. -/
def sessionC3 : Session := { thunderPciDevicesFSS := true }

def envC3 : Env := { updateVirtualDiskDeviceChanges := .ok [] }

def configC3 : VirtualMachineConfigInfo :=
  { hardware := { device := [.pci { key := 7, backing := some (.vmiop "profileA") }] } }

def argsC3 : VmUpdateArgs := { netIfList := [{ device := { backing := some (.network "netA") } }] }

/-- C3 counterexample: the full pre-power-on delta concatenates the
per-class change lists, so the ethernet Add (new interface) precedes the
PCI passthrough Remove (stale vGPU device): in the assembled list a Remove
follows an Add, refuting the claim for the full delta. -/
theorem claim_C3_counterexample :
    ((prePowerOnVMConfigSpec sessionC3 envC3 {} configC3 argsC3).toOption.map
      fun cs => removesBeforeAdds cs.deviceChange) = some false := by
  decide

/-- C3 (amended): every device-change list returned by the device matcher
orders all Removes before all Adds; the full pre-power-on delta is the
concatenation of the disk, ethernet-card and (feature-flagged) PCI
passthrough lists in that order — each internally removes-first — but
Removes of a later class follow Adds of an earlier class, so the assembled
list is not globally remove-before-add. -/
theorem claim_C3 :
    (∀ expected current : List VirtualEthernetCard,
      removesBeforeAdds (updateEthCardDeviceChanges expected current) = true) ∧
    (∀ expected current : List VirtualPCIPassthrough,
      removesBeforeAdds (updatePCIDeviceChanges expected current) = true) ∧
    (∀ (s : Session) (env : Env) (vm : VirtualMachine)
        (config : VirtualMachineConfigInfo) (updateArgs : VmUpdateArgs)
        (diskDeviceChanges : List VirtualDeviceConfigSpec),
      env.updateVirtualDiskDeviceChanges = .ok diskDeviceChanges →
      ∃ cs, prePowerOnVMConfigSpec s env vm config updateArgs = .ok cs ∧
        cs.deviceChange =
          (diskDeviceChanges ++
            updateEthCardDeviceChanges (GetVirtualDeviceList updateArgs.netIfList)
              (selectEthCards config.hardware.device)) ++
          (if s.thunderPciDevicesFSS then
            updatePCIDeviceChanges (createPCIDevices updateArgs.vmClass.hardware.devices)
              (selectPciPassthrough config.hardware.device)
          else [])) := by
  refine ⟨fun expected current => ?_, fun expected current => ?_, ?_⟩
  · rw [updateEthCardDeviceChanges_eq_matcherOut]
    exact matcherOut_removesBeforeAdds _ _ _ _
  · rw [updatePCIDeviceChanges_eq_matcherOut]
    exact matcherOut_removesBeforeAdds _ _ _ _
  · intro s env vm config updateArgs diskDeviceChanges hdisk
    unfold prePowerOnVMConfigSpec
    rw [hdisk]
    dsimp only
    split
    · refine ⟨_, rfl, ?_⟩
      dsimp only
      rw [updateConfigSpec_deviceChange]
      simp
    · refine ⟨_, rfl, ?_⟩
      dsimp only
      rw [updateConfigSpec_deviceChange]
      simp

/-- C3 witness: the per-class ordering conjuncts applied at the C3
counterexample's own device lists. -/
theorem claim_C3_witness :
    removesBeforeAdds
        (updateEthCardDeviceChanges [{ backing := some (.network "netA") }] []) = true ∧
      removesBeforeAdds
        (updatePCIDeviceChanges [] [{ key := 7, backing := some (.vmiop "profileA") }]) = true :=
  ⟨claim_C3.1 [{ backing := some (.network "netA") }] [],
    claim_C3.2.1 [] [{ key := 7, backing := some (.vmiop "profileA") }]⟩

/-! ### C7: MAC-address precedence in ethernet-card matching -/

/-- C7 counterexample: two concrete card pairs refute "match iff MAC
assigned and equal".  Pair one: manual address type, identical assigned MAC
addresses, but different ExternalIds — no match, so MAC equality is not
sufficient.  Pair two: manual address type with empty (unassigned) MAC on
both sides — the cards match, so assignment is not necessary. -/
theorem claim_C7_counterexample :
    (ethDeviceMatch
        { addressType := "manual", macAddress := "aa:bb", externalId := "ext-1",
          backing := some (.network "netA") }
        { addressType := "manual", macAddress := "aa:bb", externalId := "ext-2",
          backing := some (.network "netA") } = false ∧
      ("aa:bb" : String) ≠ "") ∧
    ethDeviceMatch
        { addressType := "manual", backing := some (.network "netA") }
        { addressType := "manual", backing := some (.network "netA") } = true := by
  decide

/-- C7 (amended): for an expected adapter whose MAC address type is manual,
MAC equality is a necessary condition checked before every other signal — a
MAC mismatch vetoes the match (already in `ethCardMatch`, hence in the full
matcher test) regardless of ExternalId or backing — and any successful
match implies the MAC addresses are equal; MAC equality alone is not
sufficient, and the address is not required to be non-empty. -/
theorem claim_C7 :
    ∀ newCard curCard : VirtualEthernetCard,
      ((newCard.addressType = VirtualEthernetCardMacTypeManual ∧
          newCard.macAddress ≠ curCard.macAddress) →
        ethCardMatch newCard curCard = false ∧ ethDeviceMatch newCard curCard = false) ∧
      ((newCard.addressType = VirtualEthernetCardMacTypeManual ∧
          ethDeviceMatch newCard curCard = true) →
        newCard.macAddress = curCard.macAddress) := by
  intro newCard curCard
  constructor
  · rintro ⟨htype, hmac⟩
    have hcard : ethCardMatch newCard curCard = false := by
      unfold ethCardMatch
      rw [if_pos]
      simp [htype, hmac]
    refine ⟨hcard, ?_⟩
    unfold ethDeviceMatch
    rw [hcard]
    rfl
  · rintro ⟨htype, hmatch⟩
    by_contra hmac
    have hcard : ethCardMatch newCard curCard = false := by
      unfold ethCardMatch
      rw [if_pos]
      simp [htype, hmac]
    unfold ethDeviceMatch at hmatch
    rw [hcard] at hmatch
    simp at hmatch

/-- C7 witness: the veto conjunct applied at a concrete pair with a manual
address type and differing MACs. -/
theorem claim_C7_witness :
    ethCardMatch { addressType := "manual", macAddress := "aa:bb" }
        { addressType := "manual", macAddress := "cc:dd" } = false ∧
      ethDeviceMatch { addressType := "manual", macAddress := "aa:bb" }
        { addressType := "manual", macAddress := "cc:dd" } = false :=
  (claim_C7 { addressType := "manual", macAddress := "aa:bb" }
      { addressType := "manual", macAddress := "cc:dd" }).1 ⟨rfl, by decide⟩

/-! ### C4: extra-config append-only -/

def configC4 : VirtualMachineConfigInfo :=
  { extraConfig := [⟨VMOperatorV1Alpha1ExtraConfigKey, VMOperatorV1Alpha1ConfigReady⟩] }

/-- C4 counterexample: the legacy v1alpha1 compatibility key is present in
the current extra-config (with the ready sentinel) and in the desired
table, yet the produced delta carries an entry for it — the force-set to
the enabled sentinel — refuting "the delta never contains an entry for a
key present in the current extra-config". -/
theorem claim_C4_counterexample :
    (updateConfigSpecExtraConfig configC4 {} { v1alpha1Compatible := true } {} {} none
        [(VMOperatorV1Alpha1ExtraConfigKey, "v2")] (fun _ v => v) false).extraConfig =
      [⟨VMOperatorV1Alpha1ExtraConfigKey, VMOperatorV1Alpha1ConfigEnabled⟩] ∧
    (mapLookup (currentExtraConfigOf configC4) VMOperatorV1Alpha1ExtraConfigKey).isSome = true := by
  decide

/-- C4 (amended): for every key `K` present in the current extra-config, the
extra-config builder adds no entry for `K` to the delta — except the single
legacy v1alpha1 compatibility key, which is force-set to the enabled
sentinel exactly when the image carries the v1alpha1-compatible condition
and the current value of that key is the ready sentinel. -/
theorem claim_C4 (config : VirtualMachineConfigInfo) (cs : VirtualMachineConfigSpec)
    (vmImage : VirtualMachineImage) (vmClassSpec : VirtualMachineClassSpec)
    (vm : VirtualMachine) (vmMetadata : Option VmMetadata)
    (globalExtraConfig : List (String × String))
    (renderTemplateFn : String → String → String) (thunderPciDevicesFSS : Bool)
    (K : String)
    (hpresent : (mapLookup (currentExtraConfigOf config) K).isSome = true) :
    ∀ entry ∈ (updateConfigSpecExtraConfig config cs vmImage vmClassSpec vm vmMetadata
        globalExtraConfig renderTemplateFn thunderPciDevicesFSS).extraConfig,
      entry ∉ cs.extraConfig → entry.key = K →
      K = VMOperatorV1Alpha1ExtraConfigKey ∧ vmImage.v1alpha1Compatible = true ∧
        (mapLookup (currentExtraConfigOf config) VMOperatorV1Alpha1ExtraConfigKey).getD "" =
          VMOperatorV1Alpha1ConfigReady ∧
        entry.value = VMOperatorV1Alpha1ConfigEnabled := by
  intro entry hentry hnotold hkey
  rw [updateConfigSpecExtraConfig_eq] at hentry
  dsimp only at hentry
  rcases List.mem_append.mp hentry with h | hleg
  · rcases List.mem_append.mp h with hold | hfil
    · exact absurd hold hnotold
    · rcases List.mem_map.mp hfil with ⟨kv, hkv, rfl⟩
      have habsent := List.of_mem_filter hkv
      dsimp only at hkey
      rw [hkey] at habsent
      rw [Option.isSome_iff_ne_none] at hpresent
      rw [Option.isNone_iff_eq_none] at habsent
      exact absurd habsent hpresent
  · split at hleg
    · rename_i hcond
      simp only [List.mem_singleton] at hleg
      subst hleg
      exact ⟨hkey.symm ▸ rfl, hcond.1, hcond.2, rfl⟩
    · simp at hleg

/-- C4 witness: the amended theorem applied at the counterexample input —
the only delta entry whose key is present in the current extra-config is
the legacy compatibility entry, under exactly the stated conditions. -/
theorem claim_C4_witness :
    "guestinfo.vmservice.defer-cloud-init" = VMOperatorV1Alpha1ExtraConfigKey ∧
      ({ v1alpha1Compatible := true } : VirtualMachineImage).v1alpha1Compatible = true ∧
      (mapLookup (currentExtraConfigOf configC4) VMOperatorV1Alpha1ExtraConfigKey).getD "" =
        VMOperatorV1Alpha1ConfigReady ∧
      (⟨VMOperatorV1Alpha1ExtraConfigKey, VMOperatorV1Alpha1ConfigEnabled⟩ : OptionValue).value =
        VMOperatorV1Alpha1ConfigEnabled :=
  claim_C4 configC4 {} { v1alpha1Compatible := true } {} {} none
    [(VMOperatorV1Alpha1ExtraConfigKey, "v2")] (fun _ v => v) false
    "guestinfo.vmservice.defer-cloud-init" (by decide)
    ⟨VMOperatorV1Alpha1ExtraConfigKey, VMOperatorV1Alpha1ConfigEnabled⟩
    (by decide) (by decide) (by decide)

/-! ### C1: empty-delta gating and idempotence -/

theorem updateEthCardDeviceChanges_nil_of_pairwise
    (expected current : List VirtualEthernetCard)
    (h : List.Forall₂ (fun e c => ethDeviceMatch e c = true) expected current) :
    updateEthCardDeviceChanges expected current = [] := by
  rw [updateEthCardDeviceChanges_eq_matcherOut]
  unfold matcherOut
  obtain ⟨h1, h2⟩ := matchDevicesLoop_pairwise ethDeviceMatch expected current h
  rw [h1, h2]
  rfl

theorem updatePCIDeviceChanges_nil_of_pairwise
    (expected current : List VirtualPCIPassthrough)
    (h : List.Forall₂ (fun e c => pciDeviceMatch e c = true) expected current) :
    updatePCIDeviceChanges expected current = [] := by
  rw [updatePCIDeviceChanges_eq_matcherOut]
  unfold matcherOut
  obtain ⟨h1, h2⟩ := matchDevicesLoop_pairwise pciDeviceMatch expected current h
  rw [h1, h2]
  rfl

/-- C1: (a) the pre-power-on reconfigure issues the Reconfigure write call
exactly when the built delta differs from the zero-value spec; (b) the
powered-on reconfigure issues no write call when its delta equals the
zero-value spec; (c) for a current config already equal to the desired
state — every builder comparison finds agreement, and each desired device
matches the corresponding attached device — the built delta is deep-equal
to the zero-value spec and the reconfigure path issues zero hypervisor
write calls. -/
theorem claim_C1 :
    (∀ (s : Session) (env : Env) (vm : VirtualMachine)
        (config : VirtualMachineConfigInfo) (updateArgs : VmUpdateArgs)
        (cs : VirtualMachineConfigSpec),
      prePowerOnVMConfigSpec s env vm config updateArgs = .ok cs →
      (prePowerOnVMReconfigure s env vm config updateArgs).1 =
        (if cs = ({} : VirtualMachineConfigSpec) then [] else [.reconfigure cs])) ∧
    (∀ (env : Env) (vm : VirtualMachine) (config : VirtualMachineConfigInfo),
      updateConfigSpecChangeBlockTracking config {} vm.spec = ({} : VirtualMachineConfigSpec) →
      (poweredOnVMReconfigure env vm config).1 = []) ∧
    (∀ (s : Session) (env : Env) (vm : VirtualMachine)
        (config : VirtualMachineConfigInfo) (updateArgs : VmUpdateArgs),
      config.annotation = VCVMAnnotation →
      config.hardware.numCPU = updateArgs.vmClass.hardware.cpus →
      config.hardware.memoryMB = memoryQuantityToMb updateArgs.vmClass.hardware.memory →
      config.managedBy ≠ none →
      (updateArgs.vmClass.policies.resources.requests.cpu = 0 ∨
        (config.cpuAllocation.bind fun a => a.reservation) =
          some (CpuQuantityToMhz updateArgs.vmClass.policies.resources.requests.cpu
            s.cpuMinMHzInCluster)) →
      (updateArgs.vmClass.policies.resources.limits.cpu = 0 ∨
        (config.cpuAllocation.bind fun a => a.limit) =
          some (CpuQuantityToMhz updateArgs.vmClass.policies.resources.limits.cpu
            s.cpuMinMHzInCluster)) →
      (updateArgs.vmClass.policies.resources.requests.memory = 0 ∨
        (config.memoryAllocation.bind fun a => a.reservation) =
          some (memoryQuantityToMb updateArgs.vmClass.policies.resources.requests.memory)) →
      (updateArgs.vmClass.policies.resources.limits.memory = 0 ∨
        (config.memoryAllocation.bind fun a => a.limit) =
          some (memoryQuantityToMb updateArgs.vmClass.policies.resources.limits.memory)) →
      (∀ kv ∈ extraConfigToAppend updateArgs.vmClass vm updateArgs.vmMetadata s.extraConfig
          env.renderExtraConfigTemplate s.thunderPciDevicesFSS,
        (mapLookup (currentExtraConfigOf config) kv.1).isSome = true) →
      ¬(updateArgs.vmImage.v1alpha1Compatible = true ∧
        (mapLookup (currentExtraConfigOf config) VMOperatorV1Alpha1ExtraConfigKey).getD "" =
          VMOperatorV1Alpha1ConfigReady) →
      (config.vAppConfig = none ∨ updateArgs.vmMetadata = none ∨
        (∃ md, updateArgs.vmMetadata = some md ∧
          md.transport ≠ VirtualMachineMetadataOvfEnvTransport) ∨
        (∃ md info, updateArgs.vmMetadata = some md ∧ config.vAppConfig = some info ∧
          GetMergedvAppConfigSpec md.data info.property = none)) →
      (vm.spec.advancedOptions.bind (fun a => a.changeBlockTracking) = none ∨
        vm.spec.advancedOptions.bind (fun a => a.changeBlockTracking) =
          config.changeTrackingEnabled) →
      env.updateVirtualDiskDeviceChanges = .ok [] →
      List.Forall₂ (fun e c => ethDeviceMatch e c = true)
        (GetVirtualDeviceList updateArgs.netIfList) (selectEthCards config.hardware.device) →
      (s.thunderPciDevicesFSS = false ∨
        List.Forall₂ (fun e c => pciDeviceMatch e c = true)
          (createPCIDevices updateArgs.vmClass.hardware.devices)
          (selectPciPassthrough config.hardware.device)) →
      prePowerOnVMConfigSpec s env vm config updateArgs = .ok ({} : VirtualMachineConfigSpec) ∧
        prePowerOnVMReconfigure s env vm config updateArgs = ([], .ok ())) := by
  refine ⟨?_, ?_, ?_⟩
  · intro s env vm config updateArgs cs h
    unfold prePowerOnVMReconfigure
    rw [h]
    by_cases hc : cs = ({} : VirtualMachineConfigSpec)
    · simp [hc]
    · simp [hc]
  · intro env vm config hcs
    unfold poweredOnVMReconfigure
    rw [hcs]
    simp
  · intro s env vm config updateArgs hann hcpu hmem hmby hcpureq hcpulim hmemreq hmemlim
      hpresent hlegacy hvapp hcbt hdisk heth hpci
    have hbuild : updateConfigSpec config updateArgs.vmImage updateArgs.vmClass
        updateArgs.vmMetadata s.extraConfig env.renderExtraConfigTemplate
        s.thunderPciDevicesFSS s.cpuMinMHzInCluster vm = ({} : VirtualMachineConfigSpec) := by
      unfold updateConfigSpec
      dsimp only
      rw [updateHardwareConfigSpec_noop _ _ _ hann hcpu hmem hmby,
        updateConfigSpecCPUAllocation_noop _ _ _ _ hcpureq hcpulim,
        updateConfigSpecMemoryAllocation_noop _ _ _ hmemreq hmemlim,
        updateConfigSpecExtraConfig_noop _ _ _ _ _ _ _ _ _ hpresent hlegacy,
        updateConfigSpecVAppConfig_noop _ _ _ hvapp,
        updateConfigSpecChangeBlockTracking_noop _ _ _ hcbt]
    have hethnil := updateEthCardDeviceChanges_nil_of_pairwise _ _ heth
    have hok : prePowerOnVMConfigSpec s env vm config updateArgs =
        .ok ({} : VirtualMachineConfigSpec) := by
      unfold prePowerOnVMConfigSpec
      rw [hdisk]
      dsimp only
      rw [hbuild, hethnil]
      rcases hpci with hflag | hpairs
      · simp [hflag]
      · by_cases hflag : s.thunderPciDevicesFSS
        · rw [updatePCIDeviceChanges_nil_of_pairwise _ _ hpairs]
          simp [hflag]
        · simp [hflag]
    refine ⟨hok, ?_⟩
    unfold prePowerOnVMReconfigure
    rw [hok]
    simp

/-- C1 witness: a session, VM and config in full agreement — management
annotation stamped, hardware equal, managed-by set, no allocations
requested, empty desired extra-config, no metadata, tracking unset, no
devices on either side — yield the zero-value delta and an empty write
trace. -/
theorem claim_C1_witness :
    prePowerOnVMConfigSpec {} {} {}
        { annotation := VCVMAnnotation,
          managedBy := some ⟨"com.vmware.vcenter.wcp", "VirtualMachine"⟩ } {} =
      .ok ({} : VirtualMachineConfigSpec) ∧
    prePowerOnVMReconfigure {} {} {}
        { annotation := VCVMAnnotation,
          managedBy := some ⟨"com.vmware.vcenter.wcp", "VirtualMachine"⟩ } {} =
      ([], .ok ()) :=
  claim_C1.2.2 {} {} {}
    { annotation := VCVMAnnotation,
      managedBy := some ⟨"com.vmware.vcenter.wcp", "VirtualMachine"⟩ } {}
    rfl rfl rfl (by decide) (Or.inl rfl) (Or.inl rfl) (Or.inl rfl) (Or.inl rfl)
    (by intro kv hkv; simp [extraConfigToAppend] at hkv) (by decide)
    (Or.inl rfl) (Or.inl rfl) rfl (by constructor) (Or.inl rfl)

/-! ### C5: behaviour when the hypervisor reports no config -/

/-- An environment whose first property fetch succeeds but reports no
config — the connection state a disconnected VM produces: the very case
the source's own `if config == nil` guard (with its explanatory comment)
exists to handle. -/
def envC5 : Env :=
  { getProperties := .ok
      { config := none,
        runtime := { powerState := "poweredOn", connectionState := "disconnected" } } }

/-- C5: with the config absent the pass does not surface an error — it
panics.  The unguarded `vmCtx.VM.Status.BiosUUID = moVM.Config.Uuid`
assignment dereferences the nil config before the nil-config guard in the
powered-on branch is ever reached, contradicting both the claim and the
source's own guard. -/
theorem claim_C5 :
    (UpdateVirtualMachine {} envC5 {} {}).2.2 =
      .panicked "runtime error: invalid memory address or nil pointer dereference" ∧
    (UpdateVirtualMachine {} envC5 {} {}).2.1 = [] := by
  decide

/-! ### C6: host-name lookup failure during status projection -/

def vmC6 : VirtualMachine :=
  { annotations := [(ClusterModuleNameKey, "module-group"), (ProviderTagsAnnotationKey, "tag-x")] }

def policyC6 : VirtualMachineSetResourcePolicy :=
  { clusterModules := [{ groupName := "module-group", moduleUuid := "uuid-1" }] }

def envC6 : Env :=
  { getProperties := .ok { config := some {}, runtime := { powerState := "poweredOff" } },
    getStatusProperties := .ok { summary := { runtime := { host := some "host-1" } } },
    hostObjectName := .error "host lookup failed" }

/-- C6 counterexample: a pass on a VM that carries both affinity
annotations (so affinity attachment would issue a tag-attach call) fails
its host-name lookup during status projection; the pass returns the
aggregated error and issues no call at all — in particular the affinity
attachment does not run, refuting "never aborts the overall convergence
pass". -/
theorem claim_C6_counterexample :
    (UpdateVirtualMachine {} envC6 vmC6 { resourcePolicy := policyC6 }).2.1 = [] ∧
      (UpdateVirtualMachine {} envC6 vmC6 { resourcePolicy := policyC6 }).2.2 =
        .error "host lookup failed" := by
  decide

/-- C6 (amended): a host-name lookup failure is collected as a non-fatal
error and aggregated into the error returned by the status projector, and
the rest of the projection still runs (every other status field is
overwritten; the host field keeps its old value); however the top-level
pass returns that aggregated error, so the subsequent affinity attachment
does not run. -/
theorem claim_C6 :
    ∀ (env : Env) (status : VirtualMachineStatus) (moVM : StatusMoVM) (e : String),
      env.getStatusProperties = .ok moVM →
      env.hostObjectName = .error e →
      moVM.summary.runtime.host ≠ none →
      ((updateVMStatus env status).2 = some e ∧
        (updateVMStatus env status).1.host = status.host ∧
        (updateVMStatus env status).1.phase = "Created" ∧
        (updateVMStatus env status).1.powerState = moVM.summary.runtime.powerState ∧
        (updateVMStatus env status).1.biosUUID = moVM.summary.config.uuid ∧
        (updateVMStatus env status).1.instanceUUID = moVM.summary.config.instanceUuid) ∧
      (∀ (s : Session) (vm : VirtualMachine) (args : VmConfigArgs)
          (mo : MoVirtualMachine) (cfg : VirtualMachineConfigInfo),
        env.getVirtualMachine = .ok () →
        env.getProperties = .ok mo →
        mo.config = some cfg →
        vm.spec.powerState = .poweredOff →
        mo.runtime.powerState = VirtualMachinePowerStatePoweredOff →
        (UpdateVirtualMachine s env vm args).2.2 = .error e ∧
          (UpdateVirtualMachine s env vm args).2.1 = []) := by
  intro env status moVM e hprops hlookup hhost
  have hstatus : ∀ st : VirtualMachineStatus,
      (updateVMStatus env st).2 = some e ∧ (updateVMStatus env st).1.host = st.host ∧
        (updateVMStatus env st).1.phase = "Created" ∧
        (updateVMStatus env st).1.powerState = moVM.summary.runtime.powerState ∧
        (updateVMStatus env st).1.biosUUID = moVM.summary.config.uuid ∧
        (updateVMStatus env st).1.instanceUUID = moVM.summary.config.instanceUuid := by
    intro st
    unfold updateVMStatus
    rw [hprops]
    dsimp only
    rcases hh : moVM.summary.runtime.host with _ | hostRef
    · exact absurd hh hhost
    · rw [hlookup]
      dsimp only
      refine ⟨rfl, ?_, ?_, ?_, ?_, ?_⟩ <;>
        rcases moVM.guest with _ | guest <;>
          rcases moVM.configChangeTracking with _ | cbt <;> rfl
  refine ⟨hstatus status, ?_⟩
  intro s vm args mo cfg hgvm hgp hcfg hspec hrt
  have h2 : ∀ st, (updateVMStatus env st).2 = some e := fun st => (hstatus st).1
  unfold UpdateVirtualMachine
  rw [hgvm]
  dsimp only
  rw [hgp]
  dsimp only
  rw [hcfg]
  dsimp only
  rw [hspec, hrt]
  dsimp only
  simp [h2]

/-- C6 witness: the amended theorem applied at the concrete C6 environment
(the same input as the counterexample). -/
theorem claim_C6_witness :
    (updateVMStatus envC6 ({} : VirtualMachineStatus)).2 = some "host lookup failed" ∧
      (updateVMStatus envC6 ({} : VirtualMachineStatus)).1.host = "" ∧
      (UpdateVirtualMachine {} envC6 vmC6 { resourcePolicy := policyC6 }).2.2 =
        .error "host lookup failed" :=
  have h := claim_C6 envC6 {} { summary := { runtime := { host := some "host-1" } } }
    "host lookup failed" rfl rfl (by decide)
  ⟨h.1.1, h.1.2.1, (h.2 {} vmC6 { resourcePolicy := policyC6 }
      { config := some {}, runtime := { powerState := "poweredOff" } } {}
      rfl rfl rfl rfl rfl).1⟩

/-! ### C8: customization gate -/

/-- C8: the bypass annotation or a pending marker (first occurrence of the
pending key carrying a nonempty value) suppresses the customization request
entirely with success; an issued request failing with the specific
customization-pending fault is swallowed as success; any other failure of
the issued request propagates; a successful request also succeeds. -/
theorem claim_C8 :
    ∀ (env : Env) (vm : VirtualMachine) (config : VirtualMachineConfigInfo)
      (updateArgs : VmUpdateArgs),
      (vm.annotation VSphereCustomizationBypassKey = VSphereCustomizationBypassDisable →
        customizeVM env vm config updateArgs = ([], .ok ())) ∧
      (isCustomizationPendingExtraConfig config.extraConfig = true →
        customizeVM env vm config updateArgs = ([], .ok ())) ∧
      (vm.annotation VSphereCustomizationBypassKey ≠ VSphereCustomizationBypassDisable →
        isCustomizationPendingExtraConfig config.extraConfig = false →
        (customizeVM env vm config updateArgs).1 =
          [.customize
            { identityHostName := vm.name, hwClockUTC := some true,
              dnsServerList := updateArgs.dnsServers,
              nicSettingMap := GetInterfaceCustomizations updateArgs.netIfList }] ∧
        (env.customize = some .customizationPending →
          (customizeVM env vm config updateArgs).2 = .ok ()) ∧
        (∀ msg, env.customize = some (.other msg) →
          (customizeVM env vm config updateArgs).2 = .error msg) ∧
        (env.customize = none → (customizeVM env vm config updateArgs).2 = .ok ())) := by
  intro env vm config updateArgs
  refine ⟨?_, ?_, ?_⟩
  · intro h
    unfold customizeVM
    rw [if_pos h]
  · intro h
    unfold customizeVM
    by_cases hb : vm.annotation VSphereCustomizationBypassKey = VSphereCustomizationBypassDisable
    · rw [if_pos hb]
    · rw [if_neg hb, if_pos h]
  · intro hb hp
    unfold customizeVM
    rw [if_neg hb, if_neg (by simp [hp])]
    dsimp only
    refine ⟨?_, ?_, ?_, ?_⟩
    · rcases hc : env.customize with _ | err
      · rfl
      · rcases err with _ | msg
        · rfl
        · rfl
    · intro hc
      rw [hc]
      rfl
    · intro msg hc
      rw [hc]
      rfl
    · intro hc
      rw [hc]

/-- C8 witness: the gate applied at three concrete inputs — bypass
annotation set, pending marker set, and an issued request answered with a
non-pending fault. -/
theorem claim_C8_witness :
    customizeVM {}
        { annotations := [(VSphereCustomizationBypassKey, VSphereCustomizationBypassDisable)] }
        {} {} = ([], .ok ()) ∧
      customizeVM {} {} { extraConfig := [⟨GOSCPendingExtraConfigKey, "pending.pkg"⟩] } {} =
        ([], .ok ()) ∧
      (customizeVM { customize := some (.other "customize failed") } {} {} {}).2 =
        .error "customize failed" :=
  ⟨(claim_C8 {}
        { annotations := [(VSphereCustomizationBypassKey, VSphereCustomizationBypassDisable)] }
        {} {}).1 (by decide),
    (claim_C8 {} {} { extraConfig := [⟨GOSCPendingExtraConfigKey, "pending.pkg"⟩] } {}).2.1
      (by decide),
    ((claim_C8 { customize := some (.other "customize failed") } {} {} {}).2.2
        (by decide) (by decide)).2.2.1 "customize failed" rfl⟩

/-! ### C9: powered-on change-block-tracking reconfigure -/

/-- C9: when the desired tracking flag is explicitly set and differs from
the current value, the powered-on path builds a delta carrying only the
tracking flag, and after a successful reconfigure invokes the FSR
(checkpoint save/restore) exactly once; when the flag is unset or
unchanged, no reconfigure and no FSR call is issued. -/
theorem claim_C9 :
    ∀ (env : Env) (vm : VirtualMachine) (config : VirtualMachineConfigInfo),
      (∀ desired : Bool,
        vm.spec.advancedOptions.bind (fun a => a.changeBlockTracking) = some desired →
        config.changeTrackingEnabled ≠ some desired →
        updateConfigSpecChangeBlockTracking config {} vm.spec =
          ({ changeTrackingEnabled := some desired } : VirtualMachineConfigSpec) ∧
        (env.reconfigure = .ok () →
          (poweredOnVMReconfigure env vm config).1 =
            [.reconfigure { changeTrackingEnabled := some desired }, .fsr] ∧
          ((poweredOnVMReconfigure env vm config).1.count .fsr) = 1)) ∧
      ((vm.spec.advancedOptions.bind (fun a => a.changeBlockTracking) = none ∨
          vm.spec.advancedOptions.bind (fun a => a.changeBlockTracking) =
            config.changeTrackingEnabled) →
        poweredOnVMReconfigure env vm config = ([], .ok ())) := by
  intro env vm config
  constructor
  · intro desired hset hne
    have hdelta := updateConfigSpecChangeBlockTracking_set config {} vm.spec desired hset hne
    refine ⟨hdelta, ?_⟩
    intro hrec
    unfold poweredOnVMReconfigure
    rw [hdelta, if_pos (by simp), hrec]
    dsimp only
    rw [if_pos (by simp)]
    refine ⟨rfl, ?_⟩
    simp [List.count_cons]
  · intro h
    have hdelta := updateConfigSpecChangeBlockTracking_noop config {} vm.spec h
    unfold poweredOnVMReconfigure
    rw [hdelta]
    simp

/-- C9 witness: both branches applied concretely — desired tracking true
against a current nil flag (delta is exactly the tracking flag, one FSR
call), and an unset desired flag (no calls). -/
theorem claim_C9_witness :
    (poweredOnVMReconfigure {}
        { spec := { advancedOptions := some { changeBlockTracking := some true } } } {}).1 =
      [.reconfigure { changeTrackingEnabled := some true }, .fsr] ∧
      poweredOnVMReconfigure {} {} {} = ([], .ok ()) :=
  ⟨(((claim_C9 {}
        { spec := { advancedOptions := some { changeBlockTracking := some true } } } {}).1
      true rfl (by decide)).2 rfl).1,
    (claim_C9 {} {} {}).2 (Or.inl rfl)⟩

/-! ### C10: status projection is atomic on fetch failure -/

/-- C10: when the property fetch at the head of the status projector
fails, the projector returns the status exactly as it was, together with
that error — no field is modified. -/
theorem claim_C10 :
    ∀ (env : Env) (status : VirtualMachineStatus) (e : String),
      env.getStatusProperties = .error e →
      updateVMStatus env status = (status, some e) := by
  intro env status e h
  unfold updateVMStatus
  rw [h]

/-- C10 witness: the projector applied to a concrete failing fetch leaves a
concrete status record untouched. -/
theorem claim_C10_witness :
    updateVMStatus { getStatusProperties := .error "ServerFaultCode" }
        ({ host := "old-host", vmIp := "10.0.0.1" } : VirtualMachineStatus) =
      ({ host := "old-host", vmIp := "10.0.0.1" }, some "ServerFaultCode") :=
  claim_C10 { getStatusProperties := .error "ServerFaultCode" }
    { host := "old-host", vmIp := "10.0.0.1" } "ServerFaultCode" rfl

end VMOp
